import Mathlib

/-!
# crypto-tax-logger: the browser front end (`frontend/script.js`)

A shallow embedding of the session-token lifecycle, the request helper, the view router and
the renderers of `frontend/script.js`, together with the properties the specification states
about them.

Modelling conventions.

* The two script globals (`AUTH_TOKEN`, `APP_STATE`), the one `localStorage` key and the part of
  the document the script touches are fields of `World`; every script function is a function
  `World → World` (or into a result paired with the new world).
* What the environment decides is an explicit argument: the answer to a `confirm` box, the
  strings typed into a `prompt`, the values of the form inputs, and the outcome of each `fetch`
  (`FetchResult`).
* An `async` function is run to completion: the continuations after each `await` are composed
  in program order with no other handler interleaved.
* A backend payload has the fields the backend contract names (`AuthData`, `User`, `Stats`,
  lists of `Wallet` and `Transaction`); numbers are integers. The script stores the `user` of
  a response without looking at it, so that value may be `null` (`none`).
* `World.trace` is a ghost log of the observable effects (requests sent, dialogs opened,
  notifications shown, timers set), in the order the script performs them.
-/

namespace CryptoTaxLogger

/-! ## Data model -/

/-- The user record the backend returns: `id, name, email, plan`. -/
structure User where
  id : Nat
  name : String
  email : String
  plan : String
  deriving DecidableEq, Repr

/-- A wallet as the backend lists it. -/
structure Wallet where
  id : Nat
  name : String
  wallet_type : String
  balance_eur : Int
  deriving DecidableEq, Repr

/-- A transaction as the backend lists it. -/
structure Transaction where
  id : Nat
  tx_type : String
  from_asset : String
  to_asset : String
  amount : Int
  total_eur : Int
  timestamp : Nat
  deriving DecidableEq, Repr

/-- The payload of `GET /dashboard/stats`. -/
structure Stats where
  portfolio_value : Int
  total_transactions : Nat
  total_wallets : Nat
  profit_loss : Int
  deriving DecidableEq, Repr

/-- The payload of a successful `POST /auth/login` or `POST /auth/register`. The script
copies `data.user` as it is, so the field holds whatever the body has there: a user object
or `null`. -/
structure AuthData where
  access_token : String
  user : Option User
  deriving DecidableEq, Repr

/-- The global `APP_STATE` object (script.js lines 50-56). -/
structure AppState where
  user : Option User
  wallets : List Wallet
  transactions : List Transaction
  currentView : String
  isLoggedIn : Bool
  deriving DecidableEq, Repr

/-- The value `APP_STATE` is given when the script is loaded. -/
def APP_STATE₀ : AppState :=
  { user := none, wallets := [], transactions := [], currentView := "dashboard",
    isLoggedIn := false }

/-! ## Requests and responses -/

/-- The body handed to `fetch`: a `JSON.stringify`-ed object or a `URLSearchParams` form,
kept as its list of fields. -/
inductive ReqBody where
  | json (fields : List (String × String))
  | form (fields : List (String × String))
  deriving DecidableEq, Repr

/-- The `options` argument of `apiCall` (and the `config` object given to `fetch`). -/
structure Options where
  method : Option String
  headers : List (String × String)
  body : Option ReqBody
  deriving DecidableEq, Repr

/-- The default `options = {}`. -/
def Options.empty : Options := { method := none, headers := [], body := none }

/-- One call of `fetch(url, config)`. -/
structure Request where
  url : String
  config : Options
  deriving DecidableEq, Repr

/-- The test `response.ok`: the status is in the range 200-299. -/
def statusOk (status : Nat) : Bool := decide (200 ≤ status) && decide (status ≤ 299)

/-- What one `fetch` followed by `response.json()` can give.
* `rejected m`: `fetch` itself rejects (network failure) with message `m`;
* `badBody s m`: a response with status `s` arrives and `response.json()` rejects with `m`;
* `okBody d`: a response with a 2xx status whose body is the payload `d`;
* `errBody s h d`: a response with a non-2xx status `s` whose JSON body has the optional
  field `detail`. -/
inductive FetchResult (α : Type) where
  | rejected (message : String)
  | badBody (status : Nat) (message : String)
  | okBody (data : α)
  | errBody (status : Nat) (h : statusOk status = false) (detail : Option String)

/-- The test `response.status === 401`; `fetch` rejecting gives no response at all. -/
def FetchResult.is401 {α : Type} : FetchResult α → Bool
  | .rejected _ => false
  | .badBody s _ => decide (s = 401)
  | .okBody _ => false
  | .errBody s _ _ => decide (s = 401)

/-! ## The document and the world -/

/-- A click listener the script attaches to a button it has just rendered. -/
inductive Handler where
  | handleAddWallet
  | switchView (viewName : String)
  | handleSyncWallet (walletId : Nat)
  deriving DecidableEq, Repr

/-- A button inside rendered markup, with the listeners `addEventListener('click', …)` gave it. -/
structure Button where
  id : String
  label : String
  onClick : List Handler
  deriving DecidableEq, Repr

/-- The content written to the `innerHTML` of a list container.
* `unrendered`: what the page markup held before the script wrote to the container;
* `emptyState`: the `<div class="empty-state">` block with its message and optional button;
* `walletCards`: one `wallet-card` per wallet, its sync button wired to `handleSyncWallet`;
* `transactionCards`: one `transaction-card` per transaction;
* `activityItems`: one `activity-item` per transaction. -/
inductive Markup where
  | unrendered
  | emptyState (message : String) (button : Option Button)
  | walletCards (wallets : List Wallet)
  | transactionCards (txs : List Transaction)
  | activityItems (txs : List Transaction)
  deriving DecidableEq, Repr

/-- The five view regions the script holds in `dashboardView … settingsView`. -/
inductive ViewRegion where
  | dashboardView
  | walletsView
  | transactionsView
  | exportView
  | settingsView
  deriving DecidableEq, Repr

/-- The part of the document the script reads and writes. A `…Hidden` field says whether the
element's class list contains `hidden`. -/
structure Dom where
  authScreenHidden : Bool
  appWrapperHidden : Bool
  loginFormHidden : Bool
  registerFormHidden : Bool
  viewHidden : ViewRegion → Bool
  activeNav : Option String
  sidebarActive : Bool
  notification : Option (String × String)
  userName : String
  userPlan : String
  settingsEmail : String
  settingsPlan : String
  txCount : String
  txLimitText : String
  txLimitClass : String
  walletCount : String
  plChangeText : String
  plChangeClass : String
  recentTxList : Markup
  walletsGrid : Markup
  transactionsList : Markup
  txFilter : String

/-- An observable effect of the script. -/
inductive Effect where
  | fetch (req : Request)
  | confirm (message : String)
  | prompt (message : String)
  | notify (message : String) (type : String)
  | setTimeout (callback : String) (ms : Nat)
  | consoleError (message : String)
  | uncaught (message : String)
  deriving DecidableEq, Repr

/-- The whole client state: the global `AUTH_TOKEN`, the `localStorage` entry `auth_token`,
the global `APP_STATE`, the document, and the log of effects. -/
structure World where
  AUTH_TOKEN : Option String
  localStorage : Option String
  APP_STATE : AppState
  dom : Dom
  trace : List Effect

/-- JavaScript truthiness of a string-or-null value: `null` and `''` are falsy. -/
def truthy : Option String → Bool
  | none => false
  | some s => s != ""

/-- The method `String.prototype.includes`: `pat` occurs in `s` as a contiguous substring. -/
def includes (s pat : String) : Bool :=
  s.toList.tails.any (fun t => pat.toList.isPrefixOf t)

/-- Assignment `obj[key] = value` on an object kept as an association list: an existing key
keeps its place and takes the new value, a new key is added at the end. -/
def setKey (key value : String) : List (String × String) → List (String × String)
  | [] => [(key, value)]
  | (k, v) :: rest => if k = key then (k, value) :: rest else (k, v) :: setKey key value rest

/-- Property lookup `obj[key]`. -/
def getKey (key : String) : List (String × String) → Option String
  | [] => none
  | (k, v) :: rest => if k = key then some v else getKey key rest

/-- The constant `API_BASE_URL`. -/
def API_BASE_URL : String := "https://crypto-tax-logger-clean.onrender.com"

/-! ## UI helpers -/

/-- The function `showNotification(message, type)` (lines 561-604): an existing notification is removed
and the new one is added to the document. The slide-in and the timed removal are not
modelled. -/
def showNotification (message type : String) (w : World) : World :=
  { w with
    dom := { w.dom with notification := some (message, type) }
    trace := w.trace ++ [Effect.notify message type] }

/-- The function `closeSidebarMenu()` (lines 555-559). -/
def closeSidebarMenu (w : World) : World :=
  { w with dom := { w.dom with sidebarActive := false } }

/-! ## Authentication -/

/-- The function `handleLogout()` (lines 230-250). `confirmed` is what `confirm('Wirklich abmelden?')`
returns. The two `form.reset()` calls clear input elements that are not part of `Dom`. -/
def handleLogout (confirmed : Bool) (w : World) : World :=
  let w₁ := { w with trace := w.trace ++ [Effect.confirm "Wirklich abmelden?"] }
  if confirmed then
    showNotification "👋 Auf Wiedersehen!" "success"
      { w₁ with
        AUTH_TOKEN := none
        localStorage := none
        APP_STATE :=
          { w₁.APP_STATE with user := none, isLoggedIn := false, wallets := [],
                              transactions := [] }
        dom :=
          { w₁.dom with appWrapperHidden := true, authScreenHidden := false,
                        registerFormHidden := true, loginFormHidden := false } }
  else w₁

/-- The `headers` object `apiCall` builds (lines 10-17): `Content-Type`, then the caller's
headers spread over it, then `Authorization` when `AUTH_TOKEN` is truthy and the endpoint
does not contain `/auth/`. -/
def apiHeaders (token : Option String) (endpoint : String) (options : Options) :
    List (String × String) :=
  let headers := options.headers.foldl (fun acc kv => setKey kv.1 kv.2 acc)
    [("Content-Type", "application/json")]
  match token with
  | some t =>
    if truthy (some t) && !includes endpoint "/auth/" then
      setKey "Authorization" ("Bearer " ++ t) headers
    else headers
  | none => headers

/-- The request `apiCall(endpoint, options)` hands to `fetch` (lines 19-25). -/
def apiRequest (token : Option String) (endpoint : String) (options : Options) : Request :=
  { url := API_BASE_URL ++ endpoint
    config := { options with headers := apiHeaders token endpoint options } }

/-- The message of the thrown error built from a non-ok response: `data.detail || fallback`. -/
def detailOr (detail : Option String) (fallback : String) : String :=
  if truthy detail then detail.getD "" else fallback

/-- The `catch` block of `apiCall` (lines 40-43): log and rethrow. -/
def apiFail {α : Type} (message : String) (w : World) : Except String α × World :=
  (Except.error message, { w with trace := w.trace ++ [Effect.consoleError message] })

/-- The function `apiCall(endpoint, options)` (lines 9-44). `res` is the outcome of the `fetch`, and
`confirmed` the answer to the `confirm` box `handleLogout` opens when the status is 401.
`Except.error m` is the thrown `Error` with message `m`. -/
def apiCall {α : Type} (endpoint : String) (options : Options) (res : FetchResult α)
    (confirmed : Bool) (w : World) : Except String α × World :=
  let w₁ := { w with trace := w.trace ++ [Effect.fetch (apiRequest w.AUTH_TOKEN endpoint options)] }
  match res with
  | .rejected m => apiFail m w₁
  | .badBody s m =>
    if s = 401 then apiFail "Session expired. Please login again." (handleLogout confirmed w₁)
    else apiFail m w₁
  | .okBody d => (Except.ok d, w₁)
  | .errBody s _ detail =>
    if s = 401 then apiFail "Session expired. Please login again." (handleLogout confirmed w₁)
    else apiFail (detailOr detail "API Error") w₁

/-- The function `handleLogin(e)` (lines 132-180). `email` and `password` are the values of the inputs
`loginEmail` and `loginPassword`; `res` is the outcome of the `fetch` to `/auth/login`. The
login request goes through `fetch` directly, not through `apiCall`. -/
def handleLogin (email password : String) (res : FetchResult AuthData) (w : World) : World :=
  if email = "" || password = "" then
    showNotification "❌ Bitte alle Felder ausfüllen" "error" w
  else
    let w₁ := showNotification "🔄 Anmeldung läuft..." "info" w
    let req : Request :=
      { url := API_BASE_URL ++ "/auth/login"
        config :=
          { method := some "POST"
            headers := [("Content-Type", "application/x-www-form-urlencoded")]
            body := some (ReqBody.form [("username", email), ("password", password)]) } }
    let w₂ := { w₁ with trace := w₁.trace ++ [Effect.fetch req] }
    match res with
    | .rejected m => showNotification ("❌ " ++ m) "error" w₂
    | .badBody _ m => showNotification ("❌ " ++ m) "error" w₂
    | .errBody _ _ detail =>
      showNotification ("❌ " ++ detailOr detail "Login fehlgeschlagen") "error" w₂
    | .okBody data =>
      let w₃ := showNotification "✅ Login erfolgreich!" "success"
        { w₂ with
          AUTH_TOKEN := some data.access_token
          localStorage := some data.access_token
          APP_STATE := { w₂.APP_STATE with user := data.user, isLoggedIn := true } }
      { w₃ with trace := w₃.trace ++ [Effect.setTimeout "loadApp" 500] }

/-- The property `length` of a JavaScript string: the number of UTF-16 code units, one for a
character of the basic plane and two for any other. -/
def jsLength (s : String) : Nat :=
  (s.toList.map (fun c => if c.toNat < 65536 then 1 else 2)).sum

/-- The function `handleRegister(e)` (lines 182-228). `name`, `email`, `password` are the values of the
inputs `regName`, `regEmail`, `regPassword`, and `plan` the value of the checked `plan` radio
button (one is checked); `res` and `confirmed` are handed to `apiCall`. -/
def handleRegister (name email password plan : String) (res : FetchResult AuthData)
    (confirmed : Bool) (w : World) : World :=
  if name = "" || email = "" || password = "" then
    showNotification "❌ Bitte alle Felder ausfüllen" "error" w
  else if jsLength password < 8 then
    showNotification "❌ Passwort muss mind. 8 Zeichen haben" "error" w
  else
    let w₁ := showNotification "🔄 Account wird erstellt..." "info" w
    let options : Options :=
      { method := some "POST"
        headers := []
        body := some (ReqBody.json
          [("name", name), ("email", email), ("password", password), ("plan", plan)]) }
    match apiCall "/auth/register" options res confirmed w₁ with
    | (Except.error m, w₂) => showNotification ("❌ " ++ m) "error" w₂
    | (Except.ok data, w₂) =>
      let w₃ := showNotification "✅ Account erstellt!" "success"
        { w₂ with
          AUTH_TOKEN := some data.access_token
          localStorage := some data.access_token
          APP_STATE := { w₂.APP_STATE with user := data.user, isLoggedIn := true } }
      { w₃ with trace := w₃.trace ++ [Effect.setTimeout "loadApp" 500] }

/-! ## Dashboard -/

/-- The function `renderRecentTransactions()` (lines 329-360). -/
def renderRecentTransactions (w : World) : World :=
  if w.APP_STATE.transactions.length = 0 then
    { w with
      dom := { w.dom with
        recentTxList := Markup.emptyState "🔍 Noch keine Transaktionen"
          (some { id := "addFirstWallet", label := "Wallet verbinden",
                  onClick := [Handler.switchView "wallets"] }) } }
  else
    { w with
      dom := { w.dom with
        recentTxList := Markup.activityItems (w.APP_STATE.transactions.take 3) } }

/-- The text `loadDashboardData` writes to `txLimit` (lines 300-302): the count, a slash, and
`∞` for the plan `pro`, `50` for any other plan. -/
def txMaxOf (plan : String) : String := if plan = "pro" then "∞" else "50"

/-- The class name `loadDashboardData` gives `txLimit` (lines 303-305). -/
def txLimitClassOf (total_transactions : Nat) (txMax : String) : String :=
  if decide (total_transactions > 40) && (txMax != "∞") then "stat-change negative"
  else "stat-change neutral"

/-- What the environment decides during one run of `loadDashboardData`: the outcomes of its
three requests and the answer to the `confirm` box of a 401 (at most one of the three calls
gets that far, as the first failure leaves the `try` block). -/
structure DashEnv where
  stats : FetchResult Stats
  wallets : FetchResult (List Wallet)
  transactions : FetchResult (List Transaction)
  confirmed : Bool

/-- The `catch` block of `loadDashboardData` (lines 324-326). -/
def dashFail (message : String) (w : World) : World :=
  showNotification ("❌ Fehler beim Laden: " ++ message) "error" w

/-- The message of the `TypeError` a property read on `null` throws (the wording depends on
the script engine). -/
def nullReadMessage (property : String) : String :=
  "Cannot read properties of null (reading " ++ property ++ ")"

/-- The second half of the `try` block of `loadDashboardData` (lines 315-322): the wallets
and the transactions are fetched and stored, then the recent transactions are rendered. A
failure of either request goes to the `catch` block. -/
def loadDashboardLists (env : DashEnv) (w : World) : World :=
  match apiCall "/wallets" Options.empty env.wallets env.confirmed w with
  | (Except.error m, w₁) => dashFail m w₁
  | (Except.ok wallets, w₁) =>
    let w₂ := { w₁ with APP_STATE := { w₁.APP_STATE with wallets := wallets } }
    match apiCall "/transactions" Options.empty env.transactions env.confirmed w₂ with
    | (Except.error m, w₃) => dashFail m w₃
    | (Except.ok txs, w₃) =>
      renderRecentTransactions
        { w₃ with APP_STATE := { w₃.APP_STATE with transactions := txs } }

/-- The function `loadDashboardData()` (lines 290-327); its lines 315-322 are `loadDashboardLists`. The
currency texts (`portfolioValue`, `profitLoss`, produced by `Intl.NumberFormat`) and the
constant `portfolioChange` are not part of `Dom`. Reading `APP_STATE.user.plan` while `user`
is `null` throws inside the `try`. -/
def loadDashboardData (env : DashEnv) (w : World) : World :=
  match apiCall "/dashboard/stats" Options.empty env.stats env.confirmed w with
  | (Except.error m, w₁) => dashFail m w₁
  | (Except.ok stats, w₁) =>
    match w₁.APP_STATE.user with
    | none => dashFail (nullReadMessage "plan") w₁
    | some user =>
      let txMax := txMaxOf user.plan
      loadDashboardLists env
        { w₁ with
          dom := { w₁.dom with
            txCount := toString stats.total_transactions
            txLimitText := toString stats.total_transactions ++ "/" ++ txMax
            txLimitClass := txLimitClassOf stats.total_transactions txMax
            walletCount := toString stats.total_wallets
            plChangeText := if stats.profit_loss ≥ 0 then "+24.5%" else "-12.3%"
            plChangeClass :=
              if stats.profit_loss ≥ 0 then "stat-change positive"
              else "stat-change negative" } }

/-- The function `loadApp()` (lines 252-268). With `APP_STATE.user` equal to `null` the read of
`APP_STATE.user.name` throws after the two class changes and the returned promise is
rejected. The two avatar letters are not part of `Dom`. -/
def loadApp (env : DashEnv) (w : World) : World :=
  let w₁ := { w with dom := { w.dom with authScreenHidden := true, appWrapperHidden := false } }
  match w₁.APP_STATE.user with
  | none => { w₁ with trace := w₁.trace ++ [Effect.uncaught (nullReadMessage "name")] }
  | some user =>
    let w₂ : World :=
      { w₁ with
        dom := { w₁.dom with
          userName := user.name
          userPlan := if user.plan = "pro" then "Pro Plan" else "Free Plan"
          settingsEmail := user.email
          settingsPlan := if user.plan = "pro" then "Pro (9€/Monat)" else "Free" } }
    showNotification "🎉 Willkommen zurück!" "success" (loadDashboardData env w₂)

/-- The function `checkAuth()` (lines 271-284). `res` and `confirmed` belong to the request
to `/auth/me`, whose body (a user object or `null`) is stored as it is; `env` belongs to the
`loadApp()` call that follows a success. -/
def checkAuth (res : FetchResult (Option User)) (confirmed : Bool) (env : DashEnv)
    (w : World) : World :=
  if truthy w.AUTH_TOKEN then
    match apiCall "/auth/me" Options.empty res confirmed w with
    | (Except.ok user, w₁) =>
      loadApp env { w₁ with APP_STATE := { w₁.APP_STATE with user := user, isLoggedIn := true } }
    | (Except.error _, w₁) => { w₁ with AUTH_TOKEN := none, localStorage := none }
  else w

/-! ## Wallets and transactions views -/

/-- The function `renderWallets()` (lines 403-436). -/
def renderWallets (w : World) : World :=
  if w.APP_STATE.wallets.length = 0 then
    { w with
      dom := { w.dom with
        walletsGrid := Markup.emptyState "💼 Noch keine Wallets verbunden"
          (some { id := "addWalletEmpty", label := "+ Erstes Wallet",
                  onClick := [Handler.handleAddWallet] }) } }
  else
    { w with dom := { w.dom with walletsGrid := Markup.walletCards w.APP_STATE.wallets } }

/-- The list `renderTransactions` keeps (lines 488-491): the whole list for the filter value
`all`, else the entries whose `tx_type` is the filter value. -/
def filteredTransactions (filter : String) (txs : List Transaction) : List Transaction :=
  if filter ≠ "all" then txs.filter (fun tx => tx.tx_type == filter) else txs

/-- The function `renderTransactions()` (lines 484-517). The filter is the value of the `txFilter`
select element. -/
def renderTransactions (w : World) : World :=
  let filtered := filteredTransactions w.dom.txFilter w.APP_STATE.transactions
  if filtered.length = 0 then
    { w with
      dom := { w.dom with
        transactionsList := Markup.emptyState "📝 Keine Transaktionen gefunden" none } }
  else
    { w with dom := { w.dom with transactionsList := Markup.transactionCards filtered } }

/-! ## Navigation -/

/-- The object `viewMap` of `switchView` (lines 371-377), as a lookup by view name. -/
def viewMap (viewName : String) : Option ViewRegion :=
  if viewName = "dashboard" then some ViewRegion.dashboardView
  else if viewName = "wallets" then some ViewRegion.walletsView
  else if viewName = "transactions" then some ViewRegion.transactionsView
  else if viewName = "export" then some ViewRegion.exportView
  else if viewName = "settings" then some ViewRegion.settingsView
  else none

/-- Modelled from the spec: the page markup (the HTML document with its `class="view"` and
`data-view` attributes) is not part of the sources. Following the View Router section
("hides all, shows the one named"), the elements `querySelectorAll('.view')` selects are the
five view regions: this predicate tells whether a region carries the class `view`. -/
def hasViewClass (_r : ViewRegion) : Bool := true

/-- Modelled from the spec: the page markup is not part of the sources. Following the View
Router section ("marks matching navigation entry active"), a navigation link with
`data-view="name"` exists for each of the five view names and for no other name. -/
def hasNavLink (viewName : String) : Bool := (viewMap viewName).isSome

/-- The function `switchView(viewName)` (lines 366-397). A `viewName` that names a property inherited from
`Object.prototype` (such as `constructor`) is outside this model. -/
def switchView (viewName : String) (w : World) : World :=
  let hidden₁ : ViewRegion → Bool := fun r => if hasViewClass r then true else w.dom.viewHidden r
  let hidden₂ : ViewRegion → Bool :=
    match viewMap viewName with
    | some target => fun r => if r = target then false else hidden₁ r
    | none => hidden₁
  let w₁ : World :=
    { w with
      dom := { w.dom with
        viewHidden := hidden₂
        activeNav := if hasNavLink viewName then some viewName else none }
      APP_STATE := { w.APP_STATE with currentView := viewName } }
  let w₂ := closeSidebarMenu w₁
  let w₃ := if viewName = "wallets" then renderWallets w₂ else w₂
  if viewName = "transactions" then renderTransactions w₃ else w₃

/-! ## Wallet actions -/

/-- The function `handleSyncWallet(walletId)` (lines 464-478). -/
def handleSyncWallet (walletId : Nat) (res : FetchResult Unit) (confirmed : Bool)
    (env : DashEnv) (w : World) : World :=
  let w₁ := showNotification "🔄 Synchronisiere Wallet..." "info" w
  let options : Options := { method := some "POST", headers := [], body := none }
  match apiCall ("/wallets/" ++ toString walletId ++ "/sync") options res confirmed w₁ with
  | (Except.error m, w₂) => showNotification ("❌ " ++ m) "error" w₂
  | (Except.ok _, w₂) =>
    loadDashboardData env (showNotification "✅ Wallet synchronisiert!" "success" w₂)

/-- The function `handleAddWallet()` (lines 438-462). `name` and `type` are what the two `prompt` boxes
return (`none` when the box is cancelled); the second box opens only after a truthy `name`. -/
def handleAddWallet (name type : Option String) (res : FetchResult Wallet) (confirmed : Bool)
    (env : DashEnv) (w : World) : World :=
  let w₁ := { w with trace := w.trace ++ [Effect.prompt "Wallet Name:"] }
  if !truthy name then w₁
  else
    let w₂ := { w₁ with trace := w₁.trace ++ [Effect.prompt "Typ (exchange/wallet/defi):"] }
    if !truthy type then w₂
    else
      let options : Options :=
        { method := some "POST"
          headers := []
          body := some (ReqBody.json
            [("name", name.getD ""), ("wallet_type", type.getD "")]) }
      match apiCall "/wallets" options res confirmed w₂ with
      | (Except.error m, w₃) => showNotification ("❌ " ++ m) "error" w₃
      | (Except.ok wallet, w₃) =>
        let w₄ : World :=
          { w₃ with APP_STATE := { w₃.APP_STATE with wallets := w₃.APP_STATE.wallets ++ [wallet] } }
        loadDashboardData env
          (renderWallets (showNotification "✅ Wallet hinzugefügt!" "success" w₄))

/-- What the environment decides while a click listener runs. -/
structure ClickEnv where
  promptName : Option String
  promptType : Option String
  wallet : FetchResult Wallet
  sync : FetchResult Unit
  confirmed : Bool
  dash : DashEnv

/-- Running a click listener: the function the listener names is called. -/
def runHandler (h : Handler) (env : ClickEnv) (w : World) : World :=
  match h with
  | .handleAddWallet =>
    handleAddWallet env.promptName env.promptType env.wallet env.confirmed env.dash w
  | .switchView viewName => switchView viewName w
  | .handleSyncWallet walletId => handleSyncWallet walletId env.sync env.confirmed env.dash w

/-! ## Runs of the application -/

/-- One state-changing operation of the application together with what the environment
decides during it. -/
inductive Op where
  | login (email password : String) (res : FetchResult AuthData)
  | register (name email password plan : String) (res : FetchResult AuthData) (confirmed : Bool)
  | checkAuth (res : FetchResult (Option User)) (confirmed : Bool) (env : DashEnv)
  | logout (confirmed : Bool)
  | loadApp (env : DashEnv)
  | loadDashboardData (env : DashEnv)
  | switchView (viewName : String)
  | click (h : Handler) (env : ClickEnv)
  | setFilter (value : String)

/-- The effect of one operation. `setFilter` is the user choosing a value in the `txFilter`
select element. -/
def applyOp (op : Op) (w : World) : World :=
  match op with
  | .login email password res => handleLogin email password res w
  | .register name email password plan res confirmed =>
    handleRegister name email password plan res confirmed w
  | .checkAuth res confirmed env => checkAuth res confirmed env w
  | .logout confirmed => handleLogout confirmed w
  | .loadApp env => loadApp env w
  | .loadDashboardData env => loadDashboardData env w
  | .switchView viewName => switchView viewName w
  | .click h env => runHandler h env w
  | .setFilter value => { w with dom := { w.dom with txFilter := value } }

/-- Runs a sequence of operations, first to last. -/
def runOps (ops : List Op) (w : World) : World := ops.foldl (fun acc op => applyOp op acc) w

/-- Modelled from the spec: the page markup is not part of the sources. The document at
script load shows the auth screen with the login form ("a pre-routing auth screen"), hides
the application, and has nothing rendered yet; the visibility of the view regions and the
selected filter are left to the caller. -/
def Dom.atLoad (viewHidden : ViewRegion → Bool) (txFilter : String) : Dom :=
  { authScreenHidden := false, appWrapperHidden := true, loginFormHidden := false,
    registerFormHidden := true, viewHidden := viewHidden, activeNav := some "dashboard",
    sidebarActive := false, notification := none, userName := "", userPlan := "",
    settingsEmail := "", settingsPlan := "", txCount := "", txLimitText := "",
    txLimitClass := "", walletCount := "", plChangeText := "", plChangeClass := "",
    recentTxList := Markup.unrendered, walletsGrid := Markup.unrendered,
    transactionsList := Markup.unrendered, txFilter := txFilter }

/-- The world right after the script is loaded (lines 5-6 and 50-56): `AUTH_TOKEN` is
`localStorage.getItem('auth_token') || null` and `APP_STATE` has its literal value. -/
def World.atLoad (stored : Option String) (dom : Dom) : World :=
  { AUTH_TOKEN := if truthy stored then stored else none
    localStorage := stored
    APP_STATE := APP_STATE₀
    dom := dom
    trace := [] }

/-! ## Sample states and auxiliary predicates -/

/-- A sample user on the free plan. -/
def sampleUser : User := { id := 1, name := "Ada", email := "ada@example.org", plan := "free" }

/-- A sample document: the application is shown with the dashboard region visible. -/
def sampleDom : Dom :=
  { Dom.atLoad (fun r => decide (r ≠ ViewRegion.dashboardView)) "all" with
    authScreenHidden := true, appWrapperHidden := false }

/-- A sample signed-in world holding the token `tok`. -/
def sampleWorld : World :=
  { AUTH_TOKEN := some "tok"
    localStorage := some "tok"
    APP_STATE := { APP_STATE₀ with user := some sampleUser, isLoggedIn := true }
    dom := sampleDom
    trace := [] }

/-- The data-model invariant: `isLoggedIn` is true exactly when `user` is non-null. -/
def LoginInv (s : AppState) : Prop := s.isLoggedIn = true ↔ s.user ≠ none

/-- The region is visible: its class list does not contain `hidden`. -/
def visible (w : World) (r : ViewRegion) : Prop := w.dom.viewHidden r = false

/-- The router shows the view `name` in the region `r`: that region is visible, each of the
other four is hidden, and `APP_STATE.currentView` is `name`. -/
def showsOnly (w : World) (r : ViewRegion) (name : String) : Prop :=
  visible w r ∧ (∀ r₁, r₁ ≠ r → w.dom.viewHidden r₁ = true) ∧ w.APP_STATE.currentView = name

/-- The router state of `w₁` is that of `w₂`: the same `currentView` and the same visibility
of the view regions. -/
def sameRouter (w₁ w₂ : World) : Prop :=
  w₁.APP_STATE.currentView = w₂.APP_STATE.currentView ∧ w₁.dom.viewHidden = w₂.dom.viewHidden

/-- The operation's successful answer to a login, registration or `/auth/me` request, if
there is one, carries a user object (not `null`), as the backend contract describes it. -/
def carriesUser : Op → Bool
  | .login _ _ (.okBody data) => data.user.isSome
  | .register _ _ _ _ (.okBody data) _ => data.user.isSome
  | .checkAuth (.okBody user) _ _ => user.isSome
  | _ => true

/-- The operations that call `switchView`. -/
def navigates : Op → Bool
  | .switchView _ => true
  | .click (.switchView _) _ => true
  | _ => false

/-- A run of `loadDashboardData` in which the three requests succeed with empty lists. -/
def emptyDash : DashEnv :=
  { stats := FetchResult.okBody ⟨0, 0, 0, 0⟩
    wallets := FetchResult.okBody []
    transactions := FetchResult.okBody []
    confirmed := false }

/-- The world at script load with no stored token and a page that shows the login form and,
inside the hidden application, the dashboard region only. -/
def freshWorld : World :=
  World.atLoad none (Dom.atLoad (fun r => decide (r ≠ ViewRegion.dashboardView)) "all")

/-- Two sessions: sign in and enter, go to the wallets view, sign out, sign in and enter
again. -/
def twoSessions : List Op :=
  [Op.login "ada@example.org" "secret" (FetchResult.okBody ⟨"tok-1", some sampleUser⟩),
   Op.loadApp emptyDash,
   Op.switchView "wallets",
   Op.logout true,
   Op.login "ada@example.org" "secret" (FetchResult.okBody ⟨"tok-2", some sampleUser⟩),
   Op.loadApp emptyDash]

/-- The transactions for which a container shows a card. -/
def renderedTransactions : Markup → List Transaction
  | .transactionCards txs => txs
  | _ => []

/-- The wallets for which a container shows a card. -/
def renderedWallets : Markup → List Wallet
  | .walletCards wallets => wallets
  | _ => []

/-- The container shows the empty-state block. -/
def isEmptyState : Markup → Bool
  | .emptyState _ _ => true
  | _ => false

/-- A sample transaction of the given type. -/
def sampleTx (id : Nat) (tx_type : String) : Transaction :=
  { id := id, tx_type := tx_type, from_asset := "EUR", to_asset := "BTC", amount := 1,
    total_eur := 100, timestamp := 0 }

/-- The sample world with four transactions (buy, sell, transfer, buy) and the filter set to
`buy`. -/
def buyFilterWorld : World :=
  { sampleWorld with
    APP_STATE := { sampleWorld.APP_STATE with
      transactions := [sampleTx 1 "buy", sampleTx 2 "sell", sampleTx 3 "transfer",
                       sampleTx 4 "buy"] }
    dom := { sampleWorld.dom with txFilter := "buy" } }

/-- The requests of `loadDashboardData` succeed and the stats count 45 transactions. -/
def dash45 : DashEnv :=
  { stats := FetchResult.okBody ⟨0, 45, 0, 0⟩
    wallets := FetchResult.okBody []
    transactions := FetchResult.okBody []
    confirmed := false }

/-- A click during which both prompts are cancelled. -/
def cancelledClick : ClickEnv :=
  { promptName := none
    promptType := none
    wallet := FetchResult.rejected ""
    sync := FetchResult.rejected ""
    confirmed := false
    dash := emptyDash }

/-- The `txLimit` text and class of `w₁` are those of `w₂`. -/
def sameLimit (w₁ w₂ : World) : Prop :=
  w₁.dom.txLimitText = w₂.dom.txLimitText ∧ w₁.dom.txLimitClass = w₂.dom.txLimitClass

/-- The request `handleAddWallet` sends through `apiCall` (lines 446-452) when the stored
token is `token`: `POST /wallets` with the body `name`, `wallet_type`. -/
def addWalletRequest (token : Option String) (name type : String) : Request :=
  apiRequest token "/wallets"
    { method := some "POST"
      headers := []
      body := some (ReqBody.json [("name", name), ("wallet_type", type)]) }

/-- The network requests in a log of effects, in the order they were sent. -/
def requests (trace : List Effect) : List Request :=
  trace.filterMap (fun e => match e with
    | .fetch req => some req
    | _ => none)

/-- The request `handleRegister` sends through `apiCall` (lines 202-210) when the stored
token is `token`. -/
def registerRequest (token : Option String) (name email password plan : String) : Request :=
  apiRequest token "/auth/register"
    { method := some "POST"
      headers := []
      body := some (ReqBody.json
        [("name", name), ("email", email), ("password", password), ("plan", plan)]) }

/-! # Properties -/

/-! ## Logout -/

/-- C1 (counterexample): when the confirmation prompt is declined, `handleLogout` leaves the
token in `AUTH_TOKEN` and in `localStorage` and the user in `APP_STATE`. -/
theorem handleLogout_declined_keeps_session :
    (handleLogout false sampleWorld).AUTH_TOKEN = some "tok" ∧
    (handleLogout false sampleWorld).localStorage = some "tok" ∧
    (handleLogout false sampleWorld).APP_STATE.user = some sampleUser := by
  decide

/-- C1 (amended): a call of `handleLogout` whose confirmation prompt is accepted leaves
`AUTH_TOKEN` null, the persisted key removed, `APP_STATE.user` null and the wallets and
transactions empty, from every prior state; a call whose prompt is declined leaves the token,
the persisted key, `APP_STATE` and the document as they were. -/
theorem handleLogout_accepted_clears_declined_keeps (w : World) :
    ((handleLogout true w).AUTH_TOKEN = none ∧
      (handleLogout true w).localStorage = none ∧
      (handleLogout true w).APP_STATE.user = none ∧
      (handleLogout true w).APP_STATE.wallets = [] ∧
      (handleLogout true w).APP_STATE.transactions = []) ∧
    ((handleLogout false w).AUTH_TOKEN = w.AUTH_TOKEN ∧
      (handleLogout false w).localStorage = w.localStorage ∧
      (handleLogout false w).APP_STATE = w.APP_STATE ∧
      (handleLogout false w).dom = w.dom) := by
  simp [handleLogout, showNotification]

/-! ## The request helper -/

/-- C2 (the code at the failing input): `apiCall('/wallets')` is answered with status 401 and
the user declines the confirmation box `handleLogout` opens. The call does fail with the
session-expired error and the prompt is opened once, but the token stays in `AUTH_TOKEN` and
in `localStorage`, the user stays in `APP_STATE`, and the auth screen stays hidden. -/
theorem apiCall_401_declined_keeps_session :
    (apiCall "/wallets" Options.empty
        (FetchResult.errBody 401 rfl none : FetchResult (List Wallet)) false sampleWorld).1
      = Except.error "Session expired. Please login again." ∧
    (apiCall "/wallets" Options.empty
        (FetchResult.errBody 401 rfl none : FetchResult (List Wallet)) false sampleWorld).2.trace
      = [Effect.fetch (apiRequest (some "tok") "/wallets" Options.empty),
         Effect.confirm "Wirklich abmelden?",
         Effect.consoleError "Session expired. Please login again."] ∧
    (apiCall "/wallets" Options.empty
        (FetchResult.errBody 401 rfl none : FetchResult (List Wallet)) false sampleWorld).2.AUTH_TOKEN
      = some "tok" ∧
    (apiCall "/wallets" Options.empty
        (FetchResult.errBody 401 rfl none : FetchResult (List Wallet)) false sampleWorld).2.localStorage
      = some "tok" ∧
    (apiCall "/wallets" Options.empty
        (FetchResult.errBody 401 rfl none : FetchResult (List Wallet)) false sampleWorld).2.APP_STATE.user
      = some sampleUser ∧
    (apiCall "/wallets" Options.empty
        (FetchResult.errBody 401 rfl none : FetchResult (List Wallet)) false sampleWorld).2.dom.authScreenHidden
      = true := by
  refine ⟨rfl, ?_, rfl, rfl, rfl, rfl⟩
  decide

/-- When the confirmation box is accepted, a 401 answer to `apiCall` does all the claim C2
lists, for every endpoint, options, token and prior state: one `fetch`, one teardown (the
token and the persisted key cleared, `APP_STATE` reset, the auth screen shown), and the
session-expired error. -/
theorem apiCall_401_accepted {α : Type} (endpoint : String) (options : Options)
    (res : FetchResult α) (w : World) (h401 : res.is401 = true) :
    (apiCall endpoint options res true w).1
      = Except.error "Session expired. Please login again." ∧
    (apiCall endpoint options res true w).2.trace
      = w.trace ++ [Effect.fetch (apiRequest w.AUTH_TOKEN endpoint options),
          Effect.confirm "Wirklich abmelden?",
          Effect.notify "👋 Auf Wiedersehen!" "success",
          Effect.consoleError "Session expired. Please login again."] ∧
    (apiCall endpoint options res true w).2.AUTH_TOKEN = none ∧
    (apiCall endpoint options res true w).2.localStorage = none ∧
    (apiCall endpoint options res true w).2.APP_STATE
      = { w.APP_STATE with user := none, isLoggedIn := false, wallets := [],
                           transactions := [] } ∧
    (apiCall endpoint options res true w).2.dom.authScreenHidden = false ∧
    (apiCall endpoint options res true w).2.dom.appWrapperHidden = true := by
  cases res with
  | rejected m => simp [FetchResult.is401] at h401
  | okBody d => simp [FetchResult.is401] at h401
  | badBody s m =>
    have hs : s = 401 := by simpa [FetchResult.is401] using h401
    subst hs
    simp [apiCall, apiFail, handleLogout, showNotification]
  | errBody s h detail =>
    have hs : s = 401 := by simpa [FetchResult.is401] using h401
    subst hs
    simp [apiCall, apiFail, handleLogout, showNotification]

/-- C3 (the code at the failing input): with the token `tok` stored, the request `checkAuth`
sends to restore the session is `GET /auth/me` with the single header `Content-Type`: the
endpoint contains `/auth/`, so `apiCall` adds no `Authorization` header to it. -/
theorem checkAuth_request_has_no_authorization :
    (checkAuth (FetchResult.errBody 401 rfl none) false
        ⟨FetchResult.rejected "", FetchResult.rejected "", FetchResult.rejected "", false⟩
        sampleWorld).trace.head?
      = some (Effect.fetch
          { url := "https://crypto-tax-logger-clean.onrender.com/auth/me"
            config := { method := none, headers := [("Content-Type", "application/json")],
                        body := none } }) ∧
    getKey "Authorization" (apiHeaders (some "tok") "/auth/me" Options.empty) = none := by
  decide

/-- Lookup after assignment of the same key. -/
theorem getKey_setKey (key value : String) (obj : List (String × String)) :
    getKey key (setKey key value obj) = some value := by
  induction obj with
  | nil => simp [setKey, getKey]
  | cons kv rest ih =>
    obtain ⟨k, v⟩ := kv
    by_cases hk : k = key
    · simp [setKey, getKey, hk]
    · simp [setKey, getKey, hk, ih]

/-- The part of C3 the code does satisfy: for a non-empty token and an endpoint that does not
contain `/auth/`, the request of `apiCall` carries `Authorization: Bearer <token>`; for an
endpoint that contains `/auth/` (login, registration, and also `/auth/me`) the header is
whatever the caller passed, so none for the calls the script makes. -/
theorem apiHeaders_authorization (t endpoint : String) (options : Options) (ht : t ≠ "") :
    (includes endpoint "/auth/" = false →
      getKey "Authorization" (apiRequest (some t) endpoint options).config.headers
        = some ("Bearer " ++ t)) ∧
    (includes endpoint "/auth/" = true →
      getKey "Authorization" (apiRequest (some t) endpoint Options.empty).config.headers
        = none) := by
  constructor
  · intro h
    simp [apiRequest, apiHeaders, truthy, ht, h, getKey_setKey]
  · intro h
    simp [apiRequest, apiHeaders, truthy, ht, h, Options.empty, getKey]

/-! ## Login and registration -/

/-- The function `apiCall` returns (instead of throwing) exactly when the response is ok, and
it returns the payload of the response. -/
theorem apiCall_returns_iff {α : Type} (endpoint : String) (options : Options)
    (res : FetchResult α) (confirmed : Bool) (w : World) (data : α) :
    (apiCall endpoint options res confirmed w).1 = Except.ok data ↔
      res = FetchResult.okBody data := by
  cases res with
  | rejected m => simp [apiCall, apiFail]
  | okBody d => simp [apiCall]
  | badBody s m => by_cases hs : s = 401 <;> simp [apiCall, apiFail, hs]
  | errBody s hok detail => by_cases hs : s = 401 <;> simp [apiCall, apiFail, hs]

/-- C4: after a successful login (the inputs pass validation and the response is ok) and
after a successful registration (the inputs pass validation, the password having a `length`
of at least 8, and `apiCall` returns the response data), `AUTH_TOKEN` and the persisted `auth_token` are exactly the `access_token`
of the response, and `APP_STATE.isLoggedIn` is true. -/
theorem login_register_store_token (data : AuthData) (w : World)
    (name email password plan : String) (confirmed : Bool)
    (hname : name ≠ "") (hemail : email ≠ "") (hpassword : password ≠ "") :
    ((handleLogin email password (FetchResult.okBody data) w).AUTH_TOKEN
        = some data.access_token ∧
      (handleLogin email password (FetchResult.okBody data) w).localStorage
        = some data.access_token ∧
      (handleLogin email password (FetchResult.okBody data) w).APP_STATE.isLoggedIn = true) ∧
    (8 ≤ jsLength password →
      (handleRegister name email password plan (FetchResult.okBody data) confirmed w).AUTH_TOKEN
        = some data.access_token ∧
      (handleRegister name email password plan (FetchResult.okBody data) confirmed w).localStorage
        = some data.access_token ∧
      (handleRegister name email password plan (FetchResult.okBody data) confirmed
        w).APP_STATE.isLoggedIn = true) := by
  constructor
  · simp [handleLogin, hemail, hpassword, showNotification]
  · intro hlen
    have hlen' : ¬ jsLength password < 8 := by omega
    simp [handleRegister, hname, hemail, hpassword, hlen', apiCall, showNotification]

/-- C4 (witness): the theorem at a concrete login and registration. -/
theorem login_register_store_token_witness :
    (handleLogin "ada@example.org" "correct horse" (FetchResult.okBody ⟨"tok-1", some sampleUser⟩)
        (World.atLoad none sampleDom)).AUTH_TOKEN = some "tok-1" ∧
    (handleRegister "Ada" "ada@example.org" "correct horse" "free"
        (FetchResult.okBody ⟨"tok-1", some sampleUser⟩) false
        (World.atLoad none sampleDom)).localStorage = some "tok-1" :=
  have h := login_register_store_token ⟨"tok-1", some sampleUser⟩ (World.atLoad none sampleDom)
    "Ada" "ada@example.org" "correct horse" "free" false (by decide) (by decide) (by decide)
  ⟨h.1.1, (h.2 (by decide)).2.1⟩

/-! ## The login flag -/

theorem loginInv_handleLogout (confirmed : Bool) (w : World) (h : LoginInv w.APP_STATE) :
    LoginInv (handleLogout confirmed w).APP_STATE := by
  cases confirmed
  · simpa [handleLogout] using h
  · simp [handleLogout, showNotification, LoginInv]

theorem loginInv_apiCall {α : Type} (endpoint : String) (options : Options)
    (res : FetchResult α) (confirmed : Bool) (w : World) (h : LoginInv w.APP_STATE) :
    LoginInv (apiCall endpoint options res confirmed w).2.APP_STATE := by
  have hl := loginInv_handleLogout confirmed
    { w with trace := w.trace ++ [Effect.fetch (apiRequest w.AUTH_TOKEN endpoint options)] } h
  cases res with
  | rejected m => simpa [apiCall, apiFail] using h
  | okBody d => simpa [apiCall] using h
  | badBody s m =>
    by_cases hs : s = 401
    · simpa [apiCall, apiFail, hs] using hl
    · simpa [apiCall, apiFail, hs] using h
  | errBody s hok detail =>
    by_cases hs : s = 401
    · simpa [apiCall, apiFail, hs] using hl
    · simpa [apiCall, apiFail, hs] using h

theorem loginInv_renderRecentTransactions (w : World) (h : LoginInv w.APP_STATE) :
    LoginInv (renderRecentTransactions w).APP_STATE := by
  unfold renderRecentTransactions
  split <;> simpa using h

theorem loginInv_loadDashboardLists (env : DashEnv) (w : World) (h : LoginInv w.APP_STATE) :
    LoginInv (loadDashboardLists env w).APP_STATE := by
  unfold loadDashboardLists
  have h₁ := loginInv_apiCall "/wallets" Options.empty env.wallets env.confirmed w h
  split
  · next m w₁ heq => rw [heq] at h₁; simpa [dashFail, showNotification] using h₁
  · next wallets w₁ heq =>
    rw [heq] at h₁
    have h₂ : LoginInv
        ({ w₁ with APP_STATE := { w₁.APP_STATE with wallets := wallets } } : World).APP_STATE := by
      simpa [LoginInv] using h₁
    have h₃ := loginInv_apiCall "/transactions" Options.empty env.transactions
      env.confirmed _ h₂
    simp only
    split
    · next m w₃ heq₃ => rw [heq₃] at h₃; simpa [dashFail, showNotification] using h₃
    · next txs w₃ heq₃ =>
      rw [heq₃] at h₃
      apply loginInv_renderRecentTransactions
      simpa [LoginInv] using h₃

theorem loginInv_loadDashboardData (env : DashEnv) (w : World) (h : LoginInv w.APP_STATE) :
    LoginInv (loadDashboardData env w).APP_STATE := by
  unfold loadDashboardData
  have h₁ := loginInv_apiCall "/dashboard/stats" Options.empty env.stats env.confirmed w h
  split
  · next m w₁ heq => rw [heq] at h₁; simpa [dashFail, showNotification] using h₁
  · next stats w₁ heq =>
    rw [heq] at h₁
    split
    · simpa [dashFail, showNotification] using h₁
    · apply loginInv_loadDashboardLists
      simpa using h₁

theorem loginInv_handleLogin (email password : String) (res : FetchResult AuthData) (w : World)
    (hres : ∀ data, res = FetchResult.okBody data → data.user ≠ none)
    (h : LoginInv w.APP_STATE) : LoginInv (handleLogin email password res w).APP_STATE := by
  unfold handleLogin
  split
  · simpa [showNotification] using h
  · cases res with
    | rejected m => simpa [showNotification] using h
    | badBody s m => simpa [showNotification] using h
    | errBody s hok detail => simpa [showNotification] using h
    | okBody data =>
      have hu := hres data rfl
      simp [showNotification, LoginInv, hu]

theorem loginInv_handleRegister (name email password plan : String)
    (res : FetchResult AuthData) (confirmed : Bool) (w : World)
    (hres : ∀ data, res = FetchResult.okBody data → data.user ≠ none)
    (h : LoginInv w.APP_STATE) :
    LoginInv (handleRegister name email password plan res confirmed w).APP_STATE := by
  unfold handleRegister
  split
  · simpa [showNotification] using h
  · split
    · simpa [showNotification] using h
    · simp only
      have h₁ := loginInv_apiCall "/auth/register"
        { method := some "POST", headers := [],
          body := some (ReqBody.json
            [("name", name), ("email", email), ("password", password), ("plan", plan)]) }
        res confirmed (showNotification "🔄 Account wird erstellt..." "info" w)
        (by simpa [showNotification] using h)
      split
      · next m w₂ heq => rw [heq] at h₁; simpa [showNotification] using h₁
      · next data w₂ heq =>
        have hu := hres data ((apiCall_returns_iff _ _ res confirmed _ data).1 (by rw [heq]))
        simp [showNotification, LoginInv, hu]

theorem loginInv_loadApp (env : DashEnv) (w : World) (h : LoginInv w.APP_STATE) :
    LoginInv (loadApp env w).APP_STATE := by
  unfold loadApp
  simp only
  split
  · simpa using h
  · simp only [showNotification]
    exact loginInv_loadDashboardData env _ (by simpa using h)

theorem loginInv_checkAuth (res : FetchResult (Option User)) (confirmed : Bool)
    (env : DashEnv) (w : World)
    (hres : ∀ user, res = FetchResult.okBody user → user ≠ none)
    (h : LoginInv w.APP_STATE) :
    LoginInv (checkAuth res confirmed env w).APP_STATE := by
  unfold checkAuth
  have h₁ := loginInv_apiCall "/auth/me" Options.empty res confirmed w h
  split
  · split
    · next user w₁ heq =>
      have hu := hres user ((apiCall_returns_iff _ _ res confirmed _ user).1 (by rw [heq]))
      exact loginInv_loadApp env _ (by simp [LoginInv, hu])
    · next m w₁ heq => rw [heq] at h₁; simpa using h₁
  · exact h

theorem loginInv_renderWallets (w : World) (h : LoginInv w.APP_STATE) :
    LoginInv (renderWallets w).APP_STATE := by
  unfold renderWallets
  split <;> simpa using h

theorem loginInv_renderTransactions (w : World) (h : LoginInv w.APP_STATE) :
    LoginInv (renderTransactions w).APP_STATE := by
  unfold renderTransactions
  simp only
  split <;> simpa using h

theorem loginInv_switchView (viewName : String) (w : World) (h : LoginInv w.APP_STATE) :
    LoginInv (switchView viewName w).APP_STATE := by
  unfold switchView
  simp only
  split
  · apply loginInv_renderTransactions
    split
    · apply loginInv_renderWallets
      simpa [closeSidebarMenu, LoginInv] using h
    · simpa [closeSidebarMenu, LoginInv] using h
  · split
    · apply loginInv_renderWallets
      simpa [closeSidebarMenu, LoginInv] using h
    · simpa [closeSidebarMenu, LoginInv] using h

theorem loginInv_handleSyncWallet (walletId : Nat) (res : FetchResult Unit) (confirmed : Bool)
    (env : DashEnv) (w : World) (h : LoginInv w.APP_STATE) :
    LoginInv (handleSyncWallet walletId res confirmed env w).APP_STATE := by
  unfold handleSyncWallet
  simp only
  have h₁ := loginInv_apiCall ("/wallets/" ++ toString walletId ++ "/sync")
    { method := some "POST", headers := [], body := none } res confirmed
    (showNotification "🔄 Synchronisiere Wallet..." "info" w)
    (by simpa [showNotification] using h)
  split
  · next m w₂ heq => rw [heq] at h₁; simpa [showNotification] using h₁
  · next u w₂ heq =>
    rw [heq] at h₁
    exact loginInv_loadDashboardData env _ (by simpa [showNotification] using h₁)

theorem loginInv_handleAddWallet (name type : Option String) (res : FetchResult Wallet)
    (confirmed : Bool) (env : DashEnv) (w : World) (h : LoginInv w.APP_STATE) :
    LoginInv (handleAddWallet name type res confirmed env w).APP_STATE := by
  unfold handleAddWallet
  simp only
  split
  · simpa using h
  · split
    · simpa using h
    · have h₁ := loginInv_apiCall "/wallets"
        { method := some "POST", headers := [],
          body := some (ReqBody.json [("name", name.getD ""), ("wallet_type", type.getD "")]) }
        res confirmed
        { w with trace := w.trace ++ [Effect.prompt "Wallet Name:"] ++
            [Effect.prompt "Typ (exchange/wallet/defi):"] }
        (by simpa using h)
      simp only [List.append_assoc] at h₁ ⊢
      split
      · next m w₃ heq => rw [heq] at h₁; simpa [showNotification] using h₁
      · next wallet w₃ heq =>
        rw [heq] at h₁
        apply loginInv_loadDashboardData
        apply loginInv_renderWallets
        simpa [showNotification, LoginInv] using h₁

theorem loginInv_applyOp (op : Op) (w : World) (hop : carriesUser op = true)
    (h : LoginInv w.APP_STATE) : LoginInv (applyOp op w).APP_STATE := by
  cases op with
  | login email password res =>
    refine loginInv_handleLogin email password res w (fun data hd => ?_) h
    subst hd
    simpa [carriesUser, Option.isSome_iff_ne_none] using hop
  | register name email password plan res confirmed =>
    refine loginInv_handleRegister name email password plan res confirmed w (fun data hd => ?_) h
    subst hd
    simpa [carriesUser, Option.isSome_iff_ne_none] using hop
  | checkAuth res confirmed env =>
    refine loginInv_checkAuth res confirmed env w (fun user hd => ?_) h
    subst hd
    simpa [carriesUser, Option.isSome_iff_ne_none] using hop
  | logout confirmed => exact loginInv_handleLogout confirmed w h
  | loadApp env => exact loginInv_loadApp env w h
  | loadDashboardData env => exact loginInv_loadDashboardData env w h
  | switchView viewName => exact loginInv_switchView viewName w h
  | click hd env =>
    cases hd with
    | handleAddWallet => exact loginInv_handleAddWallet _ _ _ _ _ w h
    | switchView viewName => exact loginInv_switchView viewName w h
    | handleSyncWallet walletId => exact loginInv_handleSyncWallet walletId _ _ _ w h
  | setFilter value => simpa [applyOp] using h

theorem loginInv_runOps (ops : List Op) (w : World) (hops : ops.all carriesUser = true)
    (h : LoginInv w.APP_STATE) : LoginInv (runOps ops w).APP_STATE := by
  induction ops generalizing w with
  | nil => simpa [runOps] using h
  | cons op rest ih =>
    simp only [List.all_cons, Bool.and_eq_true] at hops
    have := ih (applyOp op w) hops.2 (loginInv_applyOp op w hops.1 h)
    simpa [runOps] using this

/-- C5 (counterexample): the login request is answered with status 200 and the body
`access_token: "tok-1", user: null`. `handleLogin` stores the null user and sets the flag:
afterwards `APP_STATE.isLoggedIn` is true and `APP_STATE.user` is null. -/
theorem login_with_null_user_sets_flag :
    (runOps [Op.login "ada@example.org" "secret" (FetchResult.okBody ⟨"tok-1", none⟩)]
        freshWorld).APP_STATE.isLoggedIn = true ∧
    (runOps [Op.login "ada@example.org" "secret" (FetchResult.okBody ⟨"tok-1", none⟩)]
        freshWorld).APP_STATE.user = none := by
  decide

/-- C5 (amended): in every state reachable from the state at script load, for every stored
token and document, by any sequence of operations (login, registration, session restore,
logout, the 401 teardown inside any `apiCall`, and the other handlers) in which every
successful answer to the login, registration and `/auth/me` requests carries a non-null user,
and with any other outcomes of the requests and dialogs, `APP_STATE.isLoggedIn` is true if
and only if `APP_STATE.user` is non-null. -/
theorem isLoggedIn_iff_user (stored : Option String) (dom : Dom) (ops : List Op)
    (hops : ops.all carriesUser = true) :
    (runOps ops (World.atLoad stored dom)).APP_STATE.isLoggedIn = true ↔
      (runOps ops (World.atLoad stored dom)).APP_STATE.user ≠ none :=
  loginInv_runOps ops (World.atLoad stored dom) hops
    (by simp [LoginInv, World.atLoad, APP_STATE₀])

/-- C5 (witness): the two sessions of `twoSessions`, whose logins are answered with a user,
end signed in with a user. -/
theorem isLoggedIn_iff_user_witness :
    twoSessions.all carriesUser = true ∧
    ((runOps twoSessions freshWorld).APP_STATE.isLoggedIn = true ↔
      (runOps twoSessions freshWorld).APP_STATE.user ≠ none) :=
  ⟨rfl, isLoggedIn_iff_user none
    (Dom.atLoad (fun r => decide (r ≠ ViewRegion.dashboardView)) "all") twoSessions rfl⟩

/-! ## The view router -/

theorem renderWallets_router (w : World) :
    (renderWallets w).APP_STATE.currentView = w.APP_STATE.currentView ∧
      (renderWallets w).dom.viewHidden = w.dom.viewHidden := by
  unfold renderWallets
  split <;> simp

theorem renderTransactions_router (w : World) :
    (renderTransactions w).APP_STATE.currentView = w.APP_STATE.currentView ∧
      (renderTransactions w).dom.viewHidden = w.dom.viewHidden := by
  unfold renderTransactions
  simp only
  split <;> simp

/-- One `switchView`: the name is recorded, and the region of the name (if it has one) is the
only one left visible. -/
theorem switchView_router (viewName : String) (w : World) :
    (switchView viewName w).APP_STATE.currentView = viewName ∧
    ∀ r, (switchView viewName w).dom.viewHidden r = false ↔ viewMap viewName = some r := by
  have key : ∀ w₂ : World,
      ((if viewName = "transactions" then
          renderTransactions (if viewName = "wallets" then renderWallets w₂ else w₂)
        else (if viewName = "wallets" then renderWallets w₂ else w₂)).APP_STATE.currentView
        = w₂.APP_STATE.currentView) ∧
      ((if viewName = "transactions" then
          renderTransactions (if viewName = "wallets" then renderWallets w₂ else w₂)
        else (if viewName = "wallets" then renderWallets w₂ else w₂)).dom.viewHidden
        = w₂.dom.viewHidden) := by
    intro w₂
    by_cases ht : viewName = "transactions" <;> by_cases hw : viewName = "wallets" <;>
      simp [ht, hw, renderWallets_router, renderTransactions_router]
  unfold switchView
  simp only
  rw [(key _).1, (key _).2]
  refine ⟨by simp [closeSidebarMenu], fun r => ?_⟩
  cases hv : viewMap viewName with
  | none => simp [closeSidebarMenu, hasViewClass]
  | some target =>
    by_cases hr : r = target
    · simp [closeSidebarMenu, hasViewClass, hr]
    · have hr' : ¬ target = r := fun h => hr h.symm
      simp [closeSidebarMenu, hasViewClass, hr, hr']

/-- After `switchView(y)` for a name `y` that `viewMap` sends to the region `ry`, the router
shows `y` in `ry`. -/
theorem switchView_showsOnly (y : String) (ry : ViewRegion) (w : World)
    (hry : viewMap y = some ry) : showsOnly (switchView y w) ry y := by
  obtain ⟨hcur, hvis⟩ := switchView_router y w
  refine ⟨(hvis ry).2 hry, fun r hr => ?_, hcur⟩
  cases hh : (switchView y w).dom.viewHidden r with
  | true => rfl
  | false =>
    have := (hvis r).1 hh
    rw [hry] at this
    exact absurd (Option.some.inj this).symm hr

/-- C6: for every prior state and every first view name `x` (so for each of the five names
other than the second one), after `switchView(x)` followed by `switchView(y)` exactly the
region of `y` is visible, the other four are hidden, and `APP_STATE.currentView` is `y`:
`dashboard` shows the region `dashboardView`, `wallets` shows `walletsView`, `transactions`
shows `transactionsView`, `export` shows `exportView` and `settings` shows `settingsView`. -/
theorem switchView_twice_shows_second (x : String) (w : World) :
    showsOnly (switchView "dashboard" (switchView x w)) ViewRegion.dashboardView "dashboard" ∧
    showsOnly (switchView "wallets" (switchView x w)) ViewRegion.walletsView "wallets" ∧
    showsOnly (switchView "transactions" (switchView x w)) ViewRegion.transactionsView
      "transactions" ∧
    showsOnly (switchView "export" (switchView x w)) ViewRegion.exportView "export" ∧
    showsOnly (switchView "settings" (switchView x w)) ViewRegion.settingsView "settings" :=
  ⟨switchView_showsOnly _ _ _ (by decide), switchView_showsOnly _ _ _ (by decide),
   switchView_showsOnly _ _ _ (by decide), switchView_showsOnly _ _ _ (by decide),
   switchView_showsOnly _ _ _ (by decide)⟩

/-! ## The router across sessions -/

theorem sameRouter_showNotification (message type : String) (w w₀ : World)
    (h : sameRouter w w₀) : sameRouter (showNotification message type w) w₀ := by
  simpa [showNotification, sameRouter] using h

theorem sameRouter_handleLogout (confirmed : Bool) (w w₀ : World) (h : sameRouter w w₀) :
    sameRouter (handleLogout confirmed w) w₀ := by
  cases confirmed <;> simpa [handleLogout, showNotification, sameRouter] using h

theorem sameRouter_apiCall {α : Type} (endpoint : String) (options : Options)
    (res : FetchResult α) (confirmed : Bool) (w w₀ : World) (h : sameRouter w w₀) :
    sameRouter (apiCall endpoint options res confirmed w).2 w₀ := by
  have hl := sameRouter_handleLogout confirmed
    { w with trace := w.trace ++ [Effect.fetch (apiRequest w.AUTH_TOKEN endpoint options)] }
    w₀ h
  cases res with
  | rejected m => simpa [apiCall, apiFail] using h
  | okBody d => simpa [apiCall] using h
  | badBody s m =>
    by_cases hs : s = 401
    · simpa [apiCall, apiFail, hs, sameRouter] using hl
    · simpa [apiCall, apiFail, hs] using h
  | errBody s hok detail =>
    by_cases hs : s = 401
    · simpa [apiCall, apiFail, hs, sameRouter] using hl
    · simpa [apiCall, apiFail, hs] using h

theorem sameRouter_renderRecentTransactions (w w₀ : World) (h : sameRouter w w₀) :
    sameRouter (renderRecentTransactions w) w₀ := by
  unfold renderRecentTransactions
  split <;> simpa [sameRouter] using h

theorem sameRouter_renderWallets (w w₀ : World) (h : sameRouter w w₀) :
    sameRouter (renderWallets w) w₀ := by
  unfold renderWallets
  split <;> simpa [sameRouter] using h

theorem sameRouter_loadDashboardLists (env : DashEnv) (w w₀ : World) (h : sameRouter w w₀) :
    sameRouter (loadDashboardLists env w) w₀ := by
  unfold loadDashboardLists
  have h₁ := sameRouter_apiCall "/wallets" Options.empty env.wallets env.confirmed w w₀ h
  split
  · next m w₁ heq => rw [heq] at h₁; simpa [dashFail, showNotification, sameRouter] using h₁
  · next wallets w₁ heq =>
    rw [heq] at h₁
    have h₂ : sameRouter
        ({ w₁ with APP_STATE := { w₁.APP_STATE with wallets := wallets } } : World) w₀ := by
      simpa [sameRouter] using h₁
    have h₃ := sameRouter_apiCall "/transactions" Options.empty env.transactions
      env.confirmed _ w₀ h₂
    simp only
    split
    · next m w₃ heq₃ =>
      rw [heq₃] at h₃; simpa [dashFail, showNotification, sameRouter] using h₃
    · next txs w₃ heq₃ =>
      rw [heq₃] at h₃
      apply sameRouter_renderRecentTransactions
      simpa [sameRouter] using h₃

theorem sameRouter_loadDashboardData (env : DashEnv) (w w₀ : World) (h : sameRouter w w₀) :
    sameRouter (loadDashboardData env w) w₀ := by
  unfold loadDashboardData
  have h₁ := sameRouter_apiCall "/dashboard/stats" Options.empty env.stats env.confirmed w w₀ h
  split
  · next m w₁ heq => rw [heq] at h₁; simpa [dashFail, showNotification, sameRouter] using h₁
  · next stats w₁ heq =>
    rw [heq] at h₁
    split
    · simpa [dashFail, showNotification, sameRouter] using h₁
    · apply sameRouter_loadDashboardLists
      simpa [sameRouter] using h₁

theorem sameRouter_loadApp (env : DashEnv) (w w₀ : World) (h : sameRouter w w₀) :
    sameRouter (loadApp env w) w₀ := by
  unfold loadApp
  simp only
  split
  · simpa [sameRouter] using h
  · apply sameRouter_showNotification
    apply sameRouter_loadDashboardData
    simpa [sameRouter] using h

theorem sameRouter_checkAuth (res : FetchResult (Option User)) (confirmed : Bool) (env : DashEnv)
    (w w₀ : World) (h : sameRouter w w₀) : sameRouter (checkAuth res confirmed env w) w₀ := by
  unfold checkAuth
  have h₁ := sameRouter_apiCall "/auth/me" Options.empty res confirmed w w₀ h
  split
  · split
    · next user w₁ heq =>
      rw [heq] at h₁
      exact sameRouter_loadApp env _ w₀ (by simpa [sameRouter] using h₁)
    · next m w₁ heq => rw [heq] at h₁; simpa [sameRouter] using h₁
  · exact h

theorem sameRouter_handleLogin (email password : String) (res : FetchResult AuthData)
    (w w₀ : World) (h : sameRouter w w₀) :
    sameRouter (handleLogin email password res w) w₀ := by
  unfold handleLogin
  split
  · simpa [showNotification, sameRouter] using h
  · cases res <;> simpa [showNotification, sameRouter] using h

theorem sameRouter_handleRegister (name email password plan : String)
    (res : FetchResult AuthData) (confirmed : Bool) (w w₀ : World) (h : sameRouter w w₀) :
    sameRouter (handleRegister name email password plan res confirmed w) w₀ := by
  unfold handleRegister
  split
  · simpa [showNotification, sameRouter] using h
  · split
    · simpa [showNotification, sameRouter] using h
    · simp only
      have h₁ := sameRouter_apiCall "/auth/register"
        { method := some "POST", headers := [],
          body := some (ReqBody.json
            [("name", name), ("email", email), ("password", password), ("plan", plan)]) }
        res confirmed (showNotification "🔄 Account wird erstellt..." "info" w) w₀
        (by simpa [showNotification, sameRouter] using h)
      split
      · next m w₂ heq => rw [heq] at h₁; simpa [showNotification, sameRouter] using h₁
      · next data w₂ heq => rw [heq] at h₁; simpa [showNotification, sameRouter] using h₁

theorem sameRouter_handleSyncWallet (walletId : Nat) (res : FetchResult Unit)
    (confirmed : Bool) (env : DashEnv) (w w₀ : World) (h : sameRouter w w₀) :
    sameRouter (handleSyncWallet walletId res confirmed env w) w₀ := by
  unfold handleSyncWallet
  simp only
  have h₁ := sameRouter_apiCall ("/wallets/" ++ toString walletId ++ "/sync")
    { method := some "POST", headers := [], body := none } res confirmed
    (showNotification "🔄 Synchronisiere Wallet..." "info" w) w₀
    (by simpa [showNotification, sameRouter] using h)
  split
  · next m w₂ heq => rw [heq] at h₁; simpa [showNotification, sameRouter] using h₁
  · next u w₂ heq =>
    rw [heq] at h₁
    exact sameRouter_loadDashboardData env _ w₀
      (by simpa [showNotification, sameRouter] using h₁)

theorem sameRouter_handleAddWallet (name type : Option String) (res : FetchResult Wallet)
    (confirmed : Bool) (env : DashEnv) (w w₀ : World) (h : sameRouter w w₀) :
    sameRouter (handleAddWallet name type res confirmed env w) w₀ := by
  unfold handleAddWallet
  simp only
  split
  · simpa [sameRouter] using h
  · split
    · simpa [sameRouter] using h
    · have h₁ := sameRouter_apiCall "/wallets"
        { method := some "POST", headers := [],
          body := some (ReqBody.json [("name", name.getD ""), ("wallet_type", type.getD "")]) }
        res confirmed
        { w with trace := w.trace ++ [Effect.prompt "Wallet Name:"] ++
            [Effect.prompt "Typ (exchange/wallet/defi):"] } w₀
        (by simpa [sameRouter] using h)
      simp only [List.append_assoc] at h₁ ⊢
      split
      · next m w₃ heq => rw [heq] at h₁; simpa [showNotification, sameRouter] using h₁
      · next wallet w₃ heq =>
        rw [heq] at h₁
        apply sameRouter_loadDashboardData
        apply sameRouter_renderWallets
        simpa [showNotification, sameRouter] using h₁

theorem sameRouter_applyOp (op : Op) (w w₀ : World) (hop : navigates op = false)
    (h : sameRouter w w₀) : sameRouter (applyOp op w) w₀ := by
  cases op with
  | login email password res => exact sameRouter_handleLogin email password res w w₀ h
  | register name email password plan res confirmed =>
    exact sameRouter_handleRegister name email password plan res confirmed w w₀ h
  | checkAuth res confirmed env => exact sameRouter_checkAuth res confirmed env w w₀ h
  | logout confirmed => exact sameRouter_handleLogout confirmed w w₀ h
  | loadApp env => exact sameRouter_loadApp env w w₀ h
  | loadDashboardData env => exact sameRouter_loadDashboardData env w w₀ h
  | switchView viewName => simp [navigates] at hop
  | click hd env =>
    cases hd with
    | handleAddWallet => exact sameRouter_handleAddWallet _ _ _ _ _ w w₀ h
    | switchView viewName => simp [navigates] at hop
    | handleSyncWallet walletId => exact sameRouter_handleSyncWallet walletId _ _ _ w w₀ h
  | setFilter value => simpa [applyOp, sameRouter] using h

/-- C7 (counterexample): sign in and enter, switch to the wallets view, sign out, sign in and
enter again. After the second `loadApp` the router is not at the dashboard: `currentView` is
`wallets`, the dashboard region is hidden and the wallets region is visible. -/
theorem reentry_after_switch_is_not_dashboard :
    (runOps twoSessions freshWorld).APP_STATE.isLoggedIn = true ∧
    (runOps twoSessions freshWorld).dom.appWrapperHidden = false ∧
    (runOps twoSessions freshWorld).APP_STATE.currentView = "wallets" ∧
    (runOps twoSessions freshWorld).dom.viewHidden ViewRegion.dashboardView = true ∧
    (runOps twoSessions freshWorld).dom.viewHidden ViewRegion.walletsView = false := by
  decide

/-- C7 (amended): no operation other than `switchView` touches the router. After any sequence
of logins, registrations, session restores, logouts, `loadApp` and data loads (with any
outcomes), `APP_STATE.currentView` and the visibility of the five regions are what they were
before the sequence; so `loadApp` enters the application at the view the router was left at,
which is `dashboard` as long as no `switchView` has run since the script was loaded. -/
theorem router_unchanged_without_switchView (ops : List Op) (w : World)
    (hops : ∀ op ∈ ops, navigates op = false) :
    (runOps ops w).APP_STATE.currentView = w.APP_STATE.currentView ∧
      (runOps ops w).dom.viewHidden = w.dom.viewHidden := by
  have key : ∀ (ops : List Op) (w₁ : World), (∀ op ∈ ops, navigates op = false) →
      sameRouter w₁ w → sameRouter (runOps ops w₁) w := by
    intro ops
    induction ops with
    | nil => intro w₁ _ h; simpa [runOps] using h
    | cons op rest ih =>
      intro w₁ hall h
      have hstep := sameRouter_applyOp op w₁ w (hall op (List.mem_cons_self _ _)) h
      have := ih (applyOp op w₁) (fun o ho => hall o (List.mem_cons_of_mem _ ho)) hstep
      simpa [runOps] using this
  exact key ops w hops ⟨rfl, rfl⟩

/-- C7 (witness): a first session without navigation, from script load, is entered at the
dashboard. -/
theorem router_unchanged_without_switchView_witness :
    (runOps [Op.login "ada@example.org" "secret" (FetchResult.okBody ⟨"tok-1", some sampleUser⟩),
        Op.loadApp emptyDash] freshWorld).APP_STATE.currentView = "dashboard" ∧
    (runOps [Op.login "ada@example.org" "secret" (FetchResult.okBody ⟨"tok-1", some sampleUser⟩),
        Op.loadApp emptyDash] freshWorld).dom.viewHidden = freshWorld.dom.viewHidden :=
  router_unchanged_without_switchView
    [Op.login "ada@example.org" "secret" (FetchResult.okBody ⟨"tok-1", some sampleUser⟩),
      Op.loadApp emptyDash] freshWorld
    (by intro op hop
        simp only [List.mem_cons, List.mem_singleton, List.mem_nil_iff, or_false] at hop
        rcases hop with h | h <;> subst h <;> rfl)

/-! ## The transactions list -/

/-- C8: the list `renderTransactions` renders. For a filter value other than `all` it is the
sub-list of `APP_STATE.transactions` of the entries whose `tx_type` is the filter value, in
their original order: it is a sub-list, each of its entries has that type, and it contains
every sub-list of entries of that type. For the filter value `all` it is the whole list. The
empty-state message is produced exactly when no transaction passes the filter, which is when
that list is empty. -/
theorem renderTransactions_shows_filtered (w : World) :
    (w.dom.txFilter ≠ "all" →
      renderedTransactions (renderTransactions w).dom.transactionsList
          = w.APP_STATE.transactions.filter (fun tx => tx.tx_type == w.dom.txFilter) ∧
      (renderedTransactions (renderTransactions w).dom.transactionsList).Sublist
          w.APP_STATE.transactions ∧
      (∀ tx ∈ renderedTransactions (renderTransactions w).dom.transactionsList,
          tx.tx_type = w.dom.txFilter) ∧
      (∀ l : List Transaction, l.Sublist w.APP_STATE.transactions →
          (∀ tx ∈ l, tx.tx_type = w.dom.txFilter) →
          l.Sublist (renderedTransactions (renderTransactions w).dom.transactionsList))) ∧
    (w.dom.txFilter = "all" →
      renderedTransactions (renderTransactions w).dom.transactionsList
          = w.APP_STATE.transactions) ∧
    (isEmptyState (renderTransactions w).dom.transactionsList = true ↔
      renderedTransactions (renderTransactions w).dom.transactionsList = []) ∧
    (isEmptyState (renderTransactions w).dom.transactionsList = true ↔
      ∀ tx ∈ w.APP_STATE.transactions,
        ¬ (w.dom.txFilter = "all" ∨ tx.tx_type = w.dom.txFilter)) := by
  have hshown : renderedTransactions (renderTransactions w).dom.transactionsList
      = filteredTransactions w.dom.txFilter w.APP_STATE.transactions := by
    unfold renderTransactions
    simp only
    split
    · next h => simp [renderedTransactions, List.length_eq_zero.mp h]
    · simp [renderedTransactions]
  have hempty : isEmptyState (renderTransactions w).dom.transactionsList = true ↔
      filteredTransactions w.dom.txFilter w.APP_STATE.transactions = [] := by
    unfold renderTransactions
    simp only
    split
    · next h => simp [isEmptyState, List.length_eq_zero.mp h]
    · next h => simpa [isEmptyState, List.length_eq_zero] using h
  refine ⟨fun hf => ?_, fun hf => ?_, ?_, ?_⟩
  · have hfilt : filteredTransactions w.dom.txFilter w.APP_STATE.transactions
        = w.APP_STATE.transactions.filter (fun tx => tx.tx_type == w.dom.txFilter) := by
      simp [filteredTransactions, hf]
    rw [hshown, hfilt]
    refine ⟨rfl, List.filter_sublist _, ?_, ?_⟩
    · intro tx htx
      simpa using (List.mem_filter.mp htx).2
    · intro l hl hall
      have h₁ := hl.filter (fun tx => tx.tx_type == w.dom.txFilter)
      have h₂ : l.filter (fun tx => tx.tx_type == w.dom.txFilter) = l := by
        rw [List.filter_eq_self]
        intro tx htx
        simpa using hall tx htx
      rwa [h₂] at h₁
  · rw [hshown]
    simp [filteredTransactions, hf]
  · rw [hshown, hempty]
  · rw [hempty]
    by_cases hf : w.dom.txFilter = "all"
    · simp [filteredTransactions, hf, List.eq_nil_iff_forall_not_mem]
    · simp [filteredTransactions, hf, List.filter_eq_nil_iff]

/-- C8 (witness): with the filter `buy` on the list buy, sell, transfer, buy, the rendered
list is the first and the fourth entry, in that order. -/
theorem renderTransactions_shows_filtered_witness :
    renderedTransactions (renderTransactions buyFilterWorld).dom.transactionsList
      = [sampleTx 1 "buy", sampleTx 4 "buy"] :=
  ((renderTransactions_shows_filtered buyFilterWorld).1 (by decide)).1.trans (by decide)

/-! ## The transaction limit on the dashboard -/

theorem sameLimit_apiCall {α : Type} (endpoint : String) (options : Options)
    (res : FetchResult α) (confirmed : Bool) (w w₀ : World) (h : sameLimit w w₀) :
    sameLimit (apiCall endpoint options res confirmed w).2 w₀ := by
  cases res with
  | rejected m => simpa [apiCall, apiFail, sameLimit] using h
  | okBody d => simpa [apiCall, sameLimit] using h
  | badBody s m =>
    by_cases hs : s = 401 <;> cases confirmed <;>
      simpa [apiCall, apiFail, hs, handleLogout, showNotification, sameLimit] using h
  | errBody s hok detail =>
    by_cases hs : s = 401 <;> cases confirmed <;>
      simpa [apiCall, apiFail, hs, handleLogout, showNotification, sameLimit] using h

theorem sameLimit_loadDashboardLists (env : DashEnv) (w w₀ : World) (h : sameLimit w w₀) :
    sameLimit (loadDashboardLists env w) w₀ := by
  unfold loadDashboardLists
  have h₁ := sameLimit_apiCall "/wallets" Options.empty env.wallets env.confirmed w w₀ h
  split
  · next m w₁ heq => rw [heq] at h₁; simpa [dashFail, showNotification, sameLimit] using h₁
  · next wallets w₁ heq =>
    rw [heq] at h₁
    have h₂ : sameLimit
        ({ w₁ with APP_STATE := { w₁.APP_STATE with wallets := wallets } } : World) w₀ := by
      simpa [sameLimit] using h₁
    have h₃ := sameLimit_apiCall "/transactions" Options.empty env.transactions
      env.confirmed _ w₀ h₂
    simp only
    split
    · next m w₃ heq₃ =>
      rw [heq₃] at h₃; simpa [dashFail, showNotification, sameLimit] using h₃
    · next txs w₃ heq₃ =>
      rw [heq₃] at h₃
      unfold renderRecentTransactions
      split <;> simpa [sameLimit] using h₃

/-- The `txLimit` element after `loadDashboardData`, when the stats request succeeds and a
user is signed in: what lines 300-305 write, which nothing later in the function changes. -/
theorem loadDashboardData_txLimit (env : DashEnv) (w : World) (stats : Stats) (user : User)
    (hstats : env.stats = FetchResult.okBody stats) (huser : w.APP_STATE.user = some user) :
    (loadDashboardData env w).dom.txLimitText
        = toString stats.total_transactions ++ "/" ++ txMaxOf user.plan ∧
      (loadDashboardData env w).dom.txLimitClass
        = txLimitClassOf stats.total_transactions (txMaxOf user.plan) := by
  unfold loadDashboardData
  have hcall : apiCall "/dashboard/stats" Options.empty env.stats env.confirmed w
      = (Except.ok stats,
          { w with trace := w.trace ++
              [Effect.fetch (apiRequest w.AUTH_TOKEN "/dashboard/stats" Options.empty)] }) := by
    rw [hstats]; rfl
  rw [hcall]
  simp only [huser]
  exact sameLimit_loadDashboardLists env _ _ ⟨rfl, rfl⟩

/-- C9: in `loadDashboardData` (the stats request succeeding for a signed-in user), for every
transaction count `n`: with the plan `pro` the limit text is `n` followed by `/∞` and the
class is `stat-change neutral`, never the negative one; with any other plan the text is `n`
followed by `/50`, the class is `stat-change negative` exactly when `n > 40`, and it is
`stat-change neutral` otherwise. -/
theorem txLimit_by_plan (env : DashEnv) (w : World) (stats : Stats) (user : User)
    (hstats : env.stats = FetchResult.okBody stats) (huser : w.APP_STATE.user = some user) :
    (user.plan = "pro" →
      (loadDashboardData env w).dom.txLimitText = toString stats.total_transactions ++ "/∞" ∧
      (loadDashboardData env w).dom.txLimitClass = "stat-change neutral" ∧
      (loadDashboardData env w).dom.txLimitClass ≠ "stat-change negative") ∧
    (user.plan ≠ "pro" →
      (loadDashboardData env w).dom.txLimitText = toString stats.total_transactions ++ "/50" ∧
      ((loadDashboardData env w).dom.txLimitClass = "stat-change negative" ↔
        stats.total_transactions > 40) ∧
      ((loadDashboardData env w).dom.txLimitClass = "stat-change neutral" ↔
        ¬ stats.total_transactions > 40)) := by
  obtain ⟨htext, hclass⟩ := loadDashboardData_txLimit env w stats user hstats huser
  rw [htext, hclass]
  constructor
  · intro hp
    simp [txMaxOf, hp, txLimitClassOf, String.append_assoc]
  · intro hp
    have h50 : ("50" != "∞") = true := by decide
    have hne : ¬ ("stat-change negative" = "stat-change neutral") := by decide
    have hne' : ¬ ("stat-change neutral" = "stat-change negative") := by decide
    by_cases hn : stats.total_transactions > 40
    · simp [txMaxOf, hp, txLimitClassOf, String.append_assoc, h50, hn, hne]
    · simp [txMaxOf, hp, txLimitClassOf, String.append_assoc, h50, hn, hne']

/-- C9 (witness): the plan `free` with 45 transactions shows `45/50` flagged negative. -/
theorem txLimit_by_plan_witness :
    (loadDashboardData dash45 sampleWorld).dom.txLimitText = "45/50" ∧
    (loadDashboardData dash45 sampleWorld).dom.txLimitClass = "stat-change negative" :=
  have h := (txLimit_by_plan dash45 sampleWorld ⟨0, 45, 0, 0⟩ sampleUser rfl rfl).2
    (by decide)
  ⟨h.1.trans (by decide), h.2.1.2 (by decide)⟩

/-! ## The empty wallets view -/

/-- The button that does navigate to the wallets view is the one of the empty-state block of
`renderRecentTransactions` (the dashboard list): with no transactions, its listener is
`switchView('wallets')`. -/
theorem renderRecentTransactions_empty_prompt (w : World)
    (hw : w.APP_STATE.transactions = []) :
    (renderRecentTransactions w).dom.recentTxList
      = Markup.emptyState "🔍 Noch keine Transaktionen"
          (some { id := "addFirstWallet", label := "Wallet verbinden",
                  onClick := [Handler.switchView "wallets"] }) := by
  simp [renderRecentTransactions, hw]

/-- C10 (counterexample): in the sample world (no wallets, router at the dashboard) the
button of the empty-state prompt of `renderWallets` carries the listener `handleAddWallet`
and not a `switchView('wallets')`. A click on it opens the wallet-name prompt and, the prompt
being cancelled, leaves `currentView` at `dashboard` and the wallets region hidden, where
`switchView('wallets')` would have set `currentView` to `wallets` and shown that region. -/
theorem renderWallets_button_does_not_navigate :
    (renderWallets sampleWorld).dom.walletsGrid
      = Markup.emptyState "💼 Noch keine Wallets verbunden"
          (some { id := "addWalletEmpty", label := "+ Erstes Wallet",
                  onClick := [Handler.handleAddWallet] }) ∧
    (runHandler Handler.handleAddWallet cancelledClick
        (renderWallets sampleWorld)).APP_STATE.currentView = "dashboard" ∧
    (runHandler Handler.handleAddWallet cancelledClick
        (renderWallets sampleWorld)).dom.viewHidden ViewRegion.walletsView = true ∧
    (runHandler Handler.handleAddWallet cancelledClick (renderWallets sampleWorld)).trace
      = [Effect.prompt "Wallet Name:"] ∧
    (switchView "wallets" (renderWallets sampleWorld)).APP_STATE.currentView = "wallets" ∧
    (switchView "wallets" (renderWallets sampleWorld)).dom.viewHidden ViewRegion.walletsView
      = false := by
  decide

theorem prefix_showNotification (t : List Effect) (message type : String) (w : World)
    (h : t <+: w.trace) : t <+: (showNotification message type w).trace := by
  simpa [showNotification] using h.trans (List.prefix_append _ _)

theorem prefix_handleLogout (t : List Effect) (confirmed : Bool) (w : World)
    (h : t <+: w.trace) : t <+: (handleLogout confirmed w).trace := by
  cases confirmed
  · simpa [handleLogout] using h.trans (List.prefix_append _ _)
  · apply prefix_showNotification
    simpa using h.trans (List.prefix_append _ _)

/-- The log after `apiCall` continues the log before it, starting with the request. -/
theorem prefix_apiCall {α : Type} (endpoint : String) (options : Options)
    (res : FetchResult α) (confirmed : Bool) (w : World) :
    (w.trace ++ [Effect.fetch (apiRequest w.AUTH_TOKEN endpoint options)])
      <+: (apiCall endpoint options res confirmed w).2.trace := by
  have hl := prefix_handleLogout
    (w.trace ++ [Effect.fetch (apiRequest w.AUTH_TOKEN endpoint options)]) confirmed
    { w with trace := w.trace ++ [Effect.fetch (apiRequest w.AUTH_TOKEN endpoint options)] }
    (List.prefix_refl _)
  cases res with
  | rejected m => simp [apiCall, apiFail]
  | okBody d => simp [apiCall]
  | badBody s m =>
    by_cases hs : s = 401
    · simpa [apiCall, apiFail, hs] using hl.trans (List.prefix_append _ _)
    · simp [apiCall, apiFail, hs]
  | errBody s hok detail =>
    by_cases hs : s = 401
    · simpa [apiCall, apiFail, hs] using hl.trans (List.prefix_append _ _)
    · simp [apiCall, apiFail, hs]

theorem prefix_apiCall_of_prefix {α : Type} (t : List Effect) (endpoint : String)
    (options : Options) (res : FetchResult α) (confirmed : Bool) (w : World)
    (h : t <+: w.trace) : t <+: (apiCall endpoint options res confirmed w).2.trace :=
  (h.trans (List.prefix_append _ _)).trans (prefix_apiCall endpoint options res confirmed w)

theorem prefix_renderRecentTransactions (t : List Effect) (w : World) (h : t <+: w.trace) :
    t <+: (renderRecentTransactions w).trace := by
  unfold renderRecentTransactions
  split <;> simpa using h

theorem prefix_renderWallets (t : List Effect) (w : World) (h : t <+: w.trace) :
    t <+: (renderWallets w).trace := by
  unfold renderWallets
  split <;> simpa using h

theorem prefix_loadDashboardLists (t : List Effect) (env : DashEnv) (w : World)
    (h : t <+: w.trace) : t <+: (loadDashboardLists env w).trace := by
  unfold loadDashboardLists
  have h₁ := prefix_apiCall_of_prefix t "/wallets" Options.empty env.wallets env.confirmed w h
  split
  · next m w₁ heq => rw [heq] at h₁; exact prefix_showNotification _ _ _ _ h₁
  · next wallets w₁ heq =>
    rw [heq] at h₁
    have h₂ : t <+:
        ({ w₁ with APP_STATE := { w₁.APP_STATE with wallets := wallets } } : World).trace := h₁
    have h₃ := prefix_apiCall_of_prefix t "/transactions" Options.empty env.transactions
      env.confirmed _ h₂
    simp only
    split
    · next m w₃ heq₃ => rw [heq₃] at h₃; exact prefix_showNotification _ _ _ _ h₃
    · next txs w₃ heq₃ =>
      rw [heq₃] at h₃
      exact prefix_renderRecentTransactions _ _ h₃

theorem prefix_loadDashboardData (t : List Effect) (env : DashEnv) (w : World)
    (h : t <+: w.trace) : t <+: (loadDashboardData env w).trace := by
  unfold loadDashboardData
  have h₁ := prefix_apiCall_of_prefix t "/dashboard/stats" Options.empty env.stats
    env.confirmed w h
  split
  · next m w₁ heq => rw [heq] at h₁; exact prefix_showNotification _ _ _ _ h₁
  · next stats w₁ heq =>
    rw [heq] at h₁
    split
    · exact prefix_showNotification _ _ _ _ h₁
    · exact prefix_loadDashboardLists _ _ _ h₁

/-- With a name and a type given, `handleAddWallet` asks for the name, asks for the type,
and then sends `POST /wallets` with both. -/
theorem handleAddWallet_sends (name type : Option String) (res : FetchResult Wallet)
    (confirmed : Bool) (env : DashEnv) (w : World)
    (hname : truthy name = true) (htype : truthy type = true) :
    (w.trace ++ [Effect.prompt "Wallet Name:",
        Effect.prompt "Typ (exchange/wallet/defi):",
        Effect.fetch (addWalletRequest w.AUTH_TOKEN (name.getD "") (type.getD ""))])
      <+: (handleAddWallet name type res confirmed env w).trace := by
  have hcall := prefix_apiCall "/wallets"
    { method := some "POST", headers := [],
      body := some (ReqBody.json [("name", name.getD ""), ("wallet_type", type.getD "")]) }
    res confirmed
    { w with
      trace := w.trace ++ [Effect.prompt "Wallet Name:"] ++
        [Effect.prompt "Typ (exchange/wallet/defi):"] }
  simp only [List.append_assoc, List.singleton_append, List.cons_append, List.nil_append]
    at hcall
  unfold handleAddWallet
  simp only [hname, htype, Bool.not_true, Bool.false_eq_true, if_false,
    List.append_assoc, List.singleton_append, List.cons_append, List.nil_append]
  split
  · next m w₃ heq =>
    rw [heq] at hcall
    exact prefix_showNotification _ _ _ _ (by simpa [addWalletRequest] using hcall)
  · next wallet w₃ heq =>
    rw [heq] at hcall
    apply prefix_loadDashboardData
    apply prefix_renderWallets
    apply prefix_showNotification
    simpa [addWalletRequest] using hcall

/-- C10 (amended): for every state in which `APP_STATE.wallets` is empty, `renderWallets`
produces the empty-state prompt and no wallet card, and the one click listener of the
prompt's button is `handleAddWallet`, which does not navigate. Running that listener asks for
a wallet name; when none is given it stops there. Otherwise it asks for a type; when none is
given it stops there. Otherwise the next thing it does is send `POST /wallets` with that name
and type. In every case, whatever the backend answers, `APP_STATE.currentView` and the
visibility of the view regions stay as they were. -/
theorem renderWallets_empty_prompt (w : World) (hw : w.APP_STATE.wallets = []) :
    (renderWallets w).dom.walletsGrid
      = Markup.emptyState "💼 Noch keine Wallets verbunden"
          (some { id := "addWalletEmpty", label := "+ Erstes Wallet",
                  onClick := [Handler.handleAddWallet] }) ∧
    renderedWallets (renderWallets w).dom.walletsGrid = [] ∧
    (∀ env : ClickEnv,
      (runHandler Handler.handleAddWallet env (renderWallets w)).APP_STATE.currentView
        = w.APP_STATE.currentView ∧
      (runHandler Handler.handleAddWallet env (renderWallets w)).dom.viewHidden
        = w.dom.viewHidden) ∧
    (∀ env : ClickEnv, truthy env.promptName = false →
      (runHandler Handler.handleAddWallet env (renderWallets w)).trace
        = w.trace ++ [Effect.prompt "Wallet Name:"] ∧
      (runHandler Handler.handleAddWallet env (renderWallets w)).APP_STATE = w.APP_STATE ∧
      (runHandler Handler.handleAddWallet env (renderWallets w)).AUTH_TOKEN = w.AUTH_TOKEN ∧
      (runHandler Handler.handleAddWallet env (renderWallets w)).localStorage
        = w.localStorage ∧
      (runHandler Handler.handleAddWallet env (renderWallets w)).dom = (renderWallets w).dom) ∧
    (∀ env : ClickEnv, truthy env.promptName = true → truthy env.promptType = false →
      (runHandler Handler.handleAddWallet env (renderWallets w)).trace
        = w.trace ++ [Effect.prompt "Wallet Name:",
            Effect.prompt "Typ (exchange/wallet/defi):"] ∧
      (runHandler Handler.handleAddWallet env (renderWallets w)).APP_STATE = w.APP_STATE ∧
      (runHandler Handler.handleAddWallet env (renderWallets w)).AUTH_TOKEN = w.AUTH_TOKEN ∧
      (runHandler Handler.handleAddWallet env (renderWallets w)).localStorage
        = w.localStorage ∧
      (runHandler Handler.handleAddWallet env (renderWallets w)).dom = (renderWallets w).dom) ∧
    (∀ env : ClickEnv, truthy env.promptName = true → truthy env.promptType = true →
      (w.trace ++ [Effect.prompt "Wallet Name:",
          Effect.prompt "Typ (exchange/wallet/defi):",
          Effect.fetch (addWalletRequest w.AUTH_TOKEN (env.promptName.getD "")
            (env.promptType.getD ""))])
        <+: (runHandler Handler.handleAddWallet env (renderWallets w)).trace) := by
  have hgrid : (renderWallets w).dom.walletsGrid
      = Markup.emptyState "💼 Noch keine Wallets verbunden"
          (some { id := "addWalletEmpty", label := "+ Erstes Wallet",
                  onClick := [Handler.handleAddWallet] }) := by
    simp [renderWallets, hw]
  refine ⟨hgrid, by rw [hgrid]; rfl, fun env => ?_, fun env hname => ?_,
    fun env hname htype => ?_, fun env hname htype => ?_⟩
  · exact sameRouter_handleAddWallet _ _ _ _ _ _ w (sameRouter_renderWallets w w ⟨rfl, rfl⟩)
  · simp [runHandler, handleAddWallet, hname, renderWallets, hw]
  · simp [runHandler, handleAddWallet, hname, htype, renderWallets, hw]
  · have htrace : (renderWallets w).trace = w.trace := by simp [renderWallets, hw]
    have htoken : (renderWallets w).AUTH_TOKEN = w.AUTH_TOKEN := by simp [renderWallets, hw]
    have hsend := handleAddWallet_sends env.promptName env.promptType env.wallet env.confirmed
      env.dash (renderWallets w) hname htype
    rw [htrace, htoken] at hsend
    exact hsend

/-- C10 (witness): the sample world has no wallets; with the name `Main` and the type
`exchange` typed into the prompts, the click sends `POST /wallets`. -/
theorem renderWallets_empty_prompt_witness :
    renderedWallets (renderWallets sampleWorld).dom.walletsGrid = [] ∧
    (sampleWorld.trace ++ [Effect.prompt "Wallet Name:",
        Effect.prompt "Typ (exchange/wallet/defi):",
        Effect.fetch (addWalletRequest sampleWorld.AUTH_TOKEN "Main" "exchange")])
      <+: (runHandler Handler.handleAddWallet
            { cancelledClick with promptName := some "Main", promptType := some "exchange" }
            (renderWallets sampleWorld)).trace :=
  ⟨(renderWallets_empty_prompt sampleWorld rfl).2.1,
   (renderWallets_empty_prompt sampleWorld rfl).2.2.2.2.2
      { cancelledClick with promptName := some "Main", promptType := some "exchange" }
      (by decide) (by decide)⟩

/-! ## Validation before the network -/

/-- The `length` of a string is at least its number of characters, and equal to it when every
character is in the basic plane. -/
theorem jsLength_ge_length (s : String) :
    s.length ≤ jsLength s ∧
      ((∀ c ∈ s.toList, c.toNat < 65536) → jsLength s = s.length) := by
  have key : ∀ l : List Char,
      l.length ≤ (l.map (fun c => if c.toNat < 65536 then 1 else 2)).sum ∧
        ((∀ c ∈ l, c.toNat < 65536) →
          (l.map (fun c => if c.toNat < 65536 then 1 else 2)).sum = l.length) := by
    intro l
    induction l with
    | nil => simp
    | cons c rest ih =>
      constructor
      · have := ih.1
        by_cases hc : c.toNat < 65536 <;> simp [hc] <;> omega
      · intro hall
        have hc : c.toNat < 65536 := hall c (List.mem_cons_self _ _)
        have := ih.2 (fun d hd => hall d (List.mem_cons_of_mem _ hd))
        simp [hc, this]
        omega
  obtain ⟨l⟩ := s
  exact key l

/-- One `apiCall` sends exactly one request: the one `apiRequest` builds. -/
theorem requests_apiCall {α : Type} (endpoint : String) (options : Options)
    (res : FetchResult α) (confirmed : Bool) (w : World) :
    requests (apiCall endpoint options res confirmed w).2.trace
      = requests w.trace ++ [apiRequest w.AUTH_TOKEN endpoint options] := by
  cases res with
  | rejected m => simp [apiCall, apiFail, requests, List.filterMap_append]
  | okBody d => simp [apiCall, requests, List.filterMap_append]
  | badBody s m =>
    by_cases hs : s = 401 <;> cases confirmed <;>
      simp [apiCall, apiFail, hs, handleLogout, showNotification, requests,
        List.filterMap_append]
  | errBody s hok detail =>
    by_cases hs : s = 401 <;> cases confirmed <;>
      simp [apiCall, apiFail, hs, handleLogout, showNotification, requests,
        List.filterMap_append]

/-- C11: a login submitted with an empty email or an empty password, and a registration
submitted with an empty name, email or password or with a password whose `length` is below 8,
sends no network request, shows an error notification (and does nothing else), and leaves
`AUTH_TOKEN`, the persisted token and `APP_STATE` unchanged. Conversely a registration with
all three fields non-empty and a password of `length` at least 8 does send its request to
`/auth/register`, whatever the backend then answers. -/
theorem validation_before_network (name email password plan : String)
    (res : FetchResult AuthData) (confirmed : Bool) (w : World) :
    ((email = "" ∨ password = "") →
      requests (handleLogin email password res w).trace = requests w.trace ∧
      (handleLogin email password res w).trace
        = w.trace ++ [Effect.notify "❌ Bitte alle Felder ausfüllen" "error"] ∧
      (handleLogin email password res w).dom.notification
        = some ("❌ Bitte alle Felder ausfüllen", "error") ∧
      (handleLogin email password res w).AUTH_TOKEN = w.AUTH_TOKEN ∧
      (handleLogin email password res w).localStorage = w.localStorage ∧
      (handleLogin email password res w).APP_STATE = w.APP_STATE) ∧
    ((name = "" ∨ email = "" ∨ password = "" ∨ jsLength password < 8) →
      requests (handleRegister name email password plan res confirmed w).trace
        = requests w.trace ∧
      (∃ message,
        (handleRegister name email password plan res confirmed w).trace
          = w.trace ++ [Effect.notify message "error"] ∧
        (handleRegister name email password plan res confirmed w).dom.notification
          = some (message, "error")) ∧
      (handleRegister name email password plan res confirmed w).AUTH_TOKEN = w.AUTH_TOKEN ∧
      (handleRegister name email password plan res confirmed w).localStorage
        = w.localStorage ∧
      (handleRegister name email password plan res confirmed w).APP_STATE = w.APP_STATE) ∧
    ((name ≠ "" ∧ email ≠ "" ∧ password ≠ "" ∧ 8 ≤ jsLength password) →
      requests (handleRegister name email password plan res confirmed w).trace
        = requests w.trace ++ [registerRequest w.AUTH_TOKEN name email password plan]) := by
  refine ⟨fun h => ?_, fun h => ?_, fun h => ?_⟩
  · have hcond : (email = "" || password = "") = true := by
      rcases h with h | h <;> simp [h]
    simp [handleLogin, hcond, showNotification, requests, List.filterMap_append]
  · by_cases hempty : (name = "" || email = "" || password = "") = true
    · refine ⟨?_, ⟨"❌ Bitte alle Felder ausfüllen", ?_, ?_⟩, ?_, ?_, ?_⟩ <;>
        simp [handleRegister, hempty, showNotification, requests, List.filterMap_append]
    · have hlen : jsLength password < 8 := by
        rcases h with h | h | h | h
        · exact absurd (by simp [h]) hempty
        · exact absurd (by simp [h]) hempty
        · exact absurd (by simp [h]) hempty
        · exact h
      refine ⟨?_, ⟨"❌ Passwort muss mind. 8 Zeichen haben", ?_, ?_⟩, ?_, ?_, ?_⟩ <;>
        simp [handleRegister, hempty, hlen, showNotification, requests,
          List.filterMap_append]
  · obtain ⟨hname, hemail, hpassword, hlen⟩ := h
    have hlen' : ¬ jsLength password < 8 := by omega
    have hreq := requests_apiCall "/auth/register"
      { method := some "POST", headers := [],
        body := some (ReqBody.json
          [("name", name), ("email", email), ("password", password), ("plan", plan)]) }
      res confirmed (showNotification "🔄 Account wird erstellt..." "info" w)
    unfold handleRegister
    simp only [hname, hemail, hpassword, hlen', Bool.or_self, decide_False, Bool.false_eq_true,
      if_false]
    split
    · next m w₂ heq =>
      rw [heq] at hreq
      simp only [showNotification, requests, List.filterMap_append] at hreq ⊢
      simpa [registerRequest] using hreq
    · next data w₂ heq =>
      rw [heq] at hreq
      simp only [showNotification, requests, List.filterMap_append] at hreq ⊢
      simpa [registerRequest] using hreq

/-- C11 (witness): a login with an empty password sends nothing, a registration with the
password `short` leaves the token as it was, and a registration with the password
`correct horse` sends its request. -/
theorem validation_before_network_witness :
    requests (handleLogin "ada@example.org" "" (FetchResult.okBody ⟨"tok-1", some sampleUser⟩)
        freshWorld).trace = requests freshWorld.trace ∧
    (handleRegister "Ada" "ada@example.org" "short" "free"
        (FetchResult.okBody ⟨"tok-1", some sampleUser⟩) false freshWorld).AUTH_TOKEN
      = freshWorld.AUTH_TOKEN ∧
    requests (handleRegister "Ada" "ada@example.org" "correct horse" "free"
        (FetchResult.okBody ⟨"tok-1", some sampleUser⟩) false freshWorld).trace
      = requests freshWorld.trace ++
          [registerRequest freshWorld.AUTH_TOKEN "Ada" "ada@example.org" "correct horse" "free"] :=
  ⟨((validation_before_network "Ada" "ada@example.org" "" "free"
      (FetchResult.okBody ⟨"tok-1", some sampleUser⟩) false freshWorld).1 (Or.inr rfl)).1,
   ((validation_before_network "Ada" "ada@example.org" "short" "free"
      (FetchResult.okBody ⟨"tok-1", some sampleUser⟩) false freshWorld).2.1
        (Or.inr (Or.inr (Or.inr (by decide))))).2.2.1,
   (validation_before_network "Ada" "ada@example.org" "correct horse" "free"
      (FetchResult.okBody ⟨"tok-1", some sampleUser⟩) false freshWorld).2.2
        ⟨by decide, by decide, by decide, by decide⟩⟩

/-- The length check counts UTF-16 code units: a password of four characters outside the
basic plane has `length` 8. -/
theorem jsLength_outside_basic_plane :
    jsLength "😀😀😀😀" = 8 ∧ "😀😀😀😀".length = 4 := by
  decide

end CryptoTaxLogger
